import Mathlib

/-!
# Maliit keyboard: modifier state machine and pointer-gesture interpreter

A shallow embedding of `maliit-keyboard/logic/layoutupdater.cpp` and
`maliit-keyboard/view/glass.cpp`.

* Qt signals emitted by a function are returned as a list, in emission order.
* The `QStateMachine` of `LayoutUpdater` is embedded as the data that
  `LayoutUpdater::init` registers (transitions, `entered()` connections, states,
  initial state) together with the current configuration; a signal is delivered
  synchronously to the first registered transition of the current state.
* `d_ptr` state is passed explicitly: every member function takes the private
  structure and returns the updated one.
-/

namespace MaliitKeyboard

/-! ## Shared enumerations -/

/-- Panels of a layout (`Layout::Panel`). The five enumerators are the ones glass.cpp
names; `NumPanels` is the value it uses for "no panel". -/
inductive Panel
  | LeftPanel
  | RightPanel
  | CenterPanel
  | ExtendedPanel
  | NumPanels
  deriving DecidableEq, Repr

/-- Modelled from the spec: the `Reason` enumeration is declared in layoutupdater.h, which is
not among the sources. The three enumerators that `onActiveKeysChanged` names are kept; every
other enumerator of the type is `ReasonOther n` and takes the `default:` branch. -/
inductive Reason
  | ReasonShiftPressed
  | ReasonShiftReleased
  | ReasonKeyReleased
  | ReasonOther (n : Nat)
  deriving DecidableEq, Repr

/-! ## LayoutUpdater: the modifier state machine -/

/-- The four `QState` objects held in `LayoutUpdaterPrivate::States`. -/
inductive QState
  | no_shift
  | shift
  | latched_shift
  | caps_lock
  deriving DecidableEq, Repr

/-- The signals of `LayoutUpdater` that drive the machine. -/
inductive Signal
  | shiftPressed
  | shiftReleased
  | shiftCancelled
  | autoCapsActivated
  deriving DecidableEq, Repr

/-- The slots of `LayoutUpdater` connected to `entered()`. -/
inductive Slot
  | switchLayoutToLower
  | switchLayoutToUpper
  deriving DecidableEq, Repr

/-- What a `QStateMachine` with exclusive child states holds: the registered signal
transitions (in registration order), the `entered()` connections, the added states, the
initial state and the current configuration (`none` until `start()` has run). -/
structure QStateMachine where
  transitions : List (QState × Signal × QState)
  connections : List (QState × Slot)
  states : List QState
  initialState : Option QState
  configuration : Option QState
  deriving DecidableEq, Repr

namespace QStateMachine

/-- A freshly constructed machine: `new QStateMachine`. -/
def new : QStateMachine :=
  { transitions := [], connections := [], states := [], initialState := none,
    configuration := none }

/-- The call `source->addTransition(this, SIGNAL(sig), target)`. -/
def addTransition (m : QStateMachine) (source : QState) (sig : Signal) (target : QState) :
    QStateMachine :=
  { m with transitions := m.transitions ++ [(source, sig, target)] }

/-- The call `connect(state, SIGNAL(entered()), this, SLOT(slot))`. -/
def connectEntered (m : QStateMachine) (state : QState) (slot : Slot) : QStateMachine :=
  { m with connections := m.connections ++ [(state, slot)] }

/-- The call `machine->addState(state)`. -/
def addState (m : QStateMachine) (state : QState) : QStateMachine :=
  { m with states := m.states ++ [state] }

/-- The call `machine->setInitialState(state)`. -/
def setInitialState (m : QStateMachine) (state : QState) : QStateMachine :=
  { m with initialState := some state }

/-- The slots run when `state` is entered, in connection order. -/
def enteredSlots (m : QStateMachine) (state : QState) : List Slot :=
  (m.connections.filter (fun c => decide (c.1 = state))).map (fun c => c.2)

/-- The slot `start()`: the machine enters its initial state and the slots connected to that
state's `entered()` run. -/
def start (m : QStateMachine) : QStateMachine × List Slot :=
  match m.initialState with
  | none => (m, [])
  | some s => ({ m with configuration := some s }, m.enteredSlots s)

/-- The first registered transition of `source` that is triggered by `sig`. -/
def findTransition (m : QStateMachine) (source : QState) (sig : Signal) :
    Option (QState × Signal × QState) :=
  m.transitions.find? (fun t => decide (t.1 = source) && decide (t.2.1 = sig))

/-- Delivery of a signal to the machine: when it runs and the current state has a transition
for the signal, the target state is entered and its `entered()` slots run; otherwise nothing
happens. -/
def deliver (m : QStateMachine) (sig : Signal) : QStateMachine × List Slot :=
  match m.configuration with
  | none => (m, [])
  | some current =>
    match m.findTransition current sig with
    | none => (m, [])
    | some t => ({ m with configuration := some t.2.2 }, m.enteredSlots t.2.2)

/-- Delivery of a sequence of signals; the visited configurations are collected. -/
def run (m : QStateMachine) : List Signal → List (Option QState)
  | [] => []
  | sig :: rest => (m.deliver sig).1.configuration :: run (m.deliver sig).1 rest

end QStateMachine

/-- The private data of `LayoutUpdater`: the tracked layout (a shared pointer, `none` when
null, otherwise the address of the layout) and the machine. The `States` member holds the four
state pointers, which are the constructors of `QState`. -/
structure LayoutUpdaterPrivate where
  layout : Option Nat
  machine : QStateMachine
  deriving DecidableEq, Repr

namespace LayoutUpdater

/-- The machine built by `LayoutUpdater::init`, before the deferred `start()`. -/
def init : QStateMachine :=
  let m := QStateMachine.new
  let m := m.addTransition QState.no_shift Signal.shiftPressed QState.shift
  let m := m.addTransition QState.no_shift Signal.autoCapsActivated QState.latched_shift
  let m := m.connectEntered QState.no_shift Slot.switchLayoutToLower
  let m := m.addTransition QState.shift Signal.shiftCancelled QState.no_shift
  let m := m.addTransition QState.shift Signal.shiftReleased QState.latched_shift
  let m := m.connectEntered QState.shift Slot.switchLayoutToUpper
  let m := m.addTransition QState.latched_shift Signal.shiftCancelled QState.no_shift
  let m := m.addTransition QState.latched_shift Signal.shiftReleased QState.caps_lock
  let m := m.connectEntered QState.latched_shift Slot.switchLayoutToUpper
  let m := m.addTransition QState.caps_lock Signal.shiftReleased QState.no_shift
  let m := m.connectEntered QState.caps_lock Slot.switchLayoutToUpper
  let m := m.addState QState.no_shift
  let m := m.addState QState.shift
  let m := m.addState QState.latched_shift
  let m := m.addState QState.caps_lock
  m.setInitialState QState.no_shift

/-- The machine of `init` after the deferred `start()` has run. -/
def started : QStateMachine := init.start.1

/-- The machine of `init` while it is in state `s`. -/
def inState (s : QState) : QStateMachine :=
  { init with configuration := some s }

/-- The signal that `onActiveKeysChanged` emits for a reason, if any (the `switch`). -/
def emitted (d : LayoutUpdaterPrivate) : Reason → List Signal
  | Reason.ReasonShiftPressed => [Signal.shiftPressed]
  | Reason.ReasonShiftReleased => [Signal.shiftReleased]
  | Reason.ReasonKeyReleased =>
    if d.machine.configuration = some QState.latched_shift then [Signal.shiftCancelled] else []
  | Reason.ReasonOther _ => []

/-- Synchronous delivery of the emitted signals to the machine; the slots that ran are
collected. -/
def deliverAll (m : QStateMachine) : List Signal → QStateMachine × List Slot
  | [] => (m, [])
  | sig :: rest =>
    ((deliverAll (m.deliver sig).1 rest).1, (m.deliver sig).2 ++ (deliverAll (m.deliver sig).1 rest).2)

/-- The result of one call of a `LayoutUpdater` slot: the private data afterwards, the signals
emitted, the slots the machine ran, and the number of warnings logged. -/
structure Outcome where
  d : LayoutUpdaterPrivate
  signals : List Signal
  slots : List Slot
  warnings : Nat
  deriving DecidableEq, Repr

/-- The slot `LayoutUpdater::onActiveKeysChanged(layout, changed, reason)`. A layout other
than the tracked one returns at once. A panel other than `CenterPanel` logs a warning and
execution goes on to the `switch`. -/
def onActiveKeysChanged (d : LayoutUpdaterPrivate) (layout : Option Nat) (changed : Panel)
    (reason : Reason) : Outcome :=
  if d.layout ≠ layout then
    { d := d, signals := [], slots := [], warnings := 0 }
  else
    let warnings := if changed ≠ Panel.CenterPanel then 1 else 0
    let sigs := emitted d reason
    let r := deliverAll d.machine sigs
    { d := { d with machine := r.1 }, signals := sigs, slots := r.2, warnings := warnings }

end LayoutUpdater

/-! ## Geometry and the layout data read by Glass -/

/-- A `QPoint`: integer coordinates. -/
structure QPoint where
  x : Int
  y : Int
  deriving DecidableEq, Repr

/-- A `QRect` given as `QRect(x, y, width, height)`. -/
structure QRect where
  x : Int
  y : Int
  width : Int
  height : Int
  deriving DecidableEq, Repr

namespace QRect

/-- The right edge of Qt, `x + width - 1`. -/
def right (r : QRect) : Int := r.x + r.width - 1

/-- The bottom edge of Qt, `y + height - 1`. -/
def bottom (r : QRect) : Int := r.y + r.height - 1

/-- The test `QRect::contains(const QPoint &)` of Qt: the edges are swapped when the rectangle
is inverted, and the point lies within them, edges included. -/
def contains (r : QRect) (p : QPoint) : Bool :=
  let l := if r.right < r.x - 1 then r.right else r.x
  let rr := if r.right < r.x - 1 then r.x else r.right
  let t := if r.bottom < r.y - 1 then r.bottom else r.y
  let b := if r.bottom < r.y - 1 then r.y else r.bottom
  !(decide (p.x < l) || decide (p.x > rr)) && !(decide (p.y < t) || decide (p.y > b))

end QRect

/-- Modelled from the spec: the `Key` class (models/key.h) is not among the sources. Spec
section 3: an identity-comparable value with a bounding rectangle, a label, a validity
property and a flag saying whether it has extended keys. Two keys are equal when all their
fields are. -/
structure Key where
  label : Nat
  rect : QRect
  valid : Bool
  hasExtendedKeys : Bool
  deriving DecidableEq, Repr

/-- The default-constructed key `Key()`, the invalid sentinel for "no hit". -/
def Key.invalid : Key :=
  { label := 0, rect := { x := 0, y := 0, width := 0, height := 0 }, valid := false,
    hasExtendedKeys := false }

/-- Modelled from the spec: the `WordCandidate` class (models/wordcandidate.h) is not among the
sources. Spec section 3: an identity-comparable value with a bounding rectangle and a validity
flag. -/
structure WordCandidate where
  label : Nat
  rect : QRect
  valid : Bool
  deriving DecidableEq, Repr

/-- The default-constructed candidate `WordCandidate()`, which is invalid. -/
def WordCandidate.invalid : WordCandidate :=
  { label := 0, rect := { x := 0, y := 0, width := 0, height := 0 }, valid := false }

/-- Modelled from the spec: the `Layout` class (models/layout.h) is not among the sources. Spec
sections 3 and 6: a layout supplies its active panel, the geometry and keys of the active key
area, the candidates and geometry of the word ribbon, the offset of the extended panel and the
four panel geometries. These are the accessors glass.cpp calls; `ptr` is the address of the
shared object. A value of this type is the layout as it is while one event is handled. -/
structure Layout where
  ptr : Nat
  activePanel : Panel
  activeKeyAreaGeometry : QRect
  activeKeys : List Key
  wordRibbonCandidates : List WordCandidate
  wordRibbonGeometry : QRect
  extendedPanelOffset : QPoint
  centerPanelGeometry : QRect
  extendedPanelGeometry : QRect
  leftPanelGeometry : QRect
  rightPanelGeometry : QRect
  deriving DecidableEq, Repr

/-! ## Hit-testing (logic/hitlogic.h) -/

namespace Logic

/-- Modelled from the spec: the filter policy of `Logic::keyHit` (logic/hitlogic.h is not among
the sources). glass.cpp names `AcceptIfInFilter`; the other value is the default policy of
spec section 4.1, under which a key present in the filter is excluded. -/
inductive FilterBehaviour
  | IgnoreIfInFilter
  | AcceptIfInFilter
  deriving DecidableEq, Repr

/-- Modelled from the spec: the filter test of `Logic::keyHit` for one key (logic/hitlogic.cpp
is not among the sources). Spec section 4.1: by default a key present in the filter is
excluded; with "accept if in filter" the test is inverted and the key must be present in the
filter. -/
def accepted (filtered_keys : List Key) (behaviour : FilterBehaviour) (k : Key) : Bool :=
  match behaviour with
  | FilterBehaviour.IgnoreIfInFilter => !(filtered_keys.contains k)
  | FilterBehaviour.AcceptIfInFilter => filtered_keys.contains k

/-- Modelled from the spec: `Logic::keyHit` is defined in logic/hitlogic.cpp, which is not among
the sources. Spec section 4.1: it returns the first candidate whose rectangle contains the
point and whose identity is not present in the filter, with the region bounds as an overall
containment pre-check; with the policy "accept if in filter" the exclusion test is inverted
(the key must be in the filter); it returns the invalid sentinel on no match. -/
def keyHit (keys : List Key) (geometry : QRect) (pos : QPoint) (filtered_keys : List Key)
    (behaviour : FilterBehaviour) : Key :=
  if geometry.contains pos then
    match keys.find? (fun k => k.rect.contains pos && accepted filtered_keys behaviour k) with
    | some k => k
    | none => Key.invalid
  else Key.invalid

/-- Modelled from the spec: `Logic::wordCandidateHit` is defined in logic/hitlogic.cpp, which is
not among the sources. Spec section 4.1 ("same contract shape"): the first candidate whose
rectangle contains the point, with the ribbon geometry as containment pre-check, and the
invalid sentinel on no match. -/
def wordCandidateHit (candidates : List WordCandidate) (geometry : QRect) (pos : QPoint) :
    WordCandidate :=
  if geometry.contains pos then
    match candidates.find? (fun c => c.rect.contains pos) with
    | some c => c
    | none => WordCandidate.invalid
  else WordCandidate.invalid

end Logic

/-! ## Glass: the pointer-gesture interpreter -/

/-- The semantic events (Qt signals) that Glass emits. -/
inductive Event
  | keyPressed (key : Key) (layout : Layout)
  | keyReleased (key : Key) (layout : Layout)
  | keyEntered (key : Key) (layout : Layout)
  | keyExited (key : Key) (layout : Layout)
  | keyLongPressed (key : Key) (layout : Layout)
  | keyAreaPressed (panel : Panel) (layout : Layout)
  | keyAreaReleased (panel : Panel) (layout : Layout)
  | wordCandidatePressed (candidate : WordCandidate) (layout : Layout)
  | wordCandidateReleased (candidate : WordCandidate) (layout : Layout)
  | switchLeft (layout : Layout)
  | switchRight (layout : Layout)
  | keyboardClosed
  deriving DecidableEq, Repr

/-- A surface handle (`AbstractGraphicsViewSurface`): its address and the viewport widget of
its view, `none` when there is no window. -/
structure Surface where
  ptr : Nat
  viewport : Option Nat
  deriving DecidableEq, Repr

/-- The collaborator `targetSurface->translateEventPosition(point, eventSurface)`, taken as a
parameter: target surface, point, source surface. -/
abbrev Translate := Option Surface → QPoint → Option Surface → QPoint

/-- The fields of `GlassPrivate`. The long-press timer is its running flag; the gesture timer
is not stored: the value its `elapsed()` returns comes with the move event. -/
structure GlassPrivate where
  window : Option Nat
  extendedWindow : Option Nat
  surface : Option Surface
  extendedSurface : Option Surface
  layouts : List Layout
  active_keys : List Key
  active_candidate : WordCandidate
  last_pos : QPoint
  press_pos : QPoint
  gesture_triggered : Bool
  long_press_timer : Bool
  long_press_layout : Option Layout
  mouse_captured : Bool
  deriving DecidableEq, Repr

/-- The constructor `GlassPrivate()`. -/
def GlassPrivate.new : GlassPrivate :=
  { window := none, extendedWindow := none, surface := none, extendedSurface := none,
    layouts := [], active_keys := [], active_candidate := WordCandidate.invalid,
    last_pos := { x := 0, y := 0 }, press_pos := { x := 0, y := 0 },
    gesture_triggered := false, long_press_timer := false, long_press_layout := none,
    mouse_captured := false }

/-- The raw events that `Glass::eventFilter` distinguishes. A move carries the value that
`d->gesture_timer.elapsed()` returns while it is handled (milliseconds since the last press);
`Other` stands for every other event type, `Paint` included. -/
inductive QEvent
  | MouseButtonPress (pos : QPoint)
  | MouseButtonRelease (pos : QPoint)
  | MouseMove (pos : QPoint) (elapsed : Int)
  | Other
  deriving DecidableEq, Repr

/-- The helper `removeActiveKey` on a non-null vector: the element at the first index whose
key equals `key` is removed, and the loop stops. -/
def removeActiveKeyAt : List Key → Key → List Key
  | [], _ => []
  | k :: rest, key => if k = key then rest else k :: removeActiveKeyAt rest key

/-- The helper `removeActiveKey(active_keys, key)`; the vector pointer may be null (`none`),
in which case nothing happens. -/
def removeActiveKey (active_keys : Option (List Key)) (key : Key) : Option (List Key) :=
  match active_keys with
  | none => none
  | some ks => some (removeActiveKeyAt ks key)

/-- The function `translatePosition(pt, offset)`: component-wise subtraction. -/
def translatePosition (pt offset : QPoint) : QPoint :=
  { x := pt.x - offset.x, y := pt.y - offset.y }

namespace Glass

/-- The result of an event handler: the `bool` it returns, the private data afterwards and
the events emitted, in order. -/
structure Handled where
  consumed : Bool
  d : GlassPrivate
  events : List Event
  deriving DecidableEq, Repr

/-- The target surface chosen for a layout: the extended surface when the active panel is the
extended panel, the main surface otherwise. -/
def targetSurface (d : GlassPrivate) (layout : Layout) : Option Surface :=
  if layout.activePanel = Panel.ExtendedPanel then d.extendedSurface else d.surface

/-- The event surface chosen for the watched object: the extended surface when the object is
the extended window, the main surface otherwise. -/
def eventSurface (d : GlassPrivate) (obj : Nat) : Option Surface :=
  if some obj = d.extendedWindow then d.extendedSurface else d.surface

/-- The panel found by the chain of `contains` tests at the end of the loop body of
`handlePressReleaseEvent`. -/
def panelAt (layout : Layout) (pos : QPoint) : Panel :=
  if layout.centerPanelGeometry.contains pos then Panel.CenterPanel
  else if layout.extendedPanelGeometry.contains pos then Panel.ExtendedPanel
  else if layout.leftPanelGeometry.contains pos then Panel.LeftPanel
  else if layout.rightPanelGeometry.contains pos then Panel.RightPanel
  else Panel.NumPanels

/-- The `case QKeyEvent::MouseButtonPress` of the loop body of `handlePressReleaseEvent`, for
one layout and the translated position; `consumed` is threaded through. -/
def pressCase (layout : Layout) (pos : QPoint) (d : GlassPrivate) (consumed : Bool) : Handled :=
  let key := Logic.keyHit layout.activeKeys layout.activeKeyAreaGeometry pos d.active_keys
    Logic.FilterBehaviour.IgnoreIfInFilter
  if key.valid then
    { consumed := true,
      d := { d with
        active_keys := d.active_keys ++ [key],
        long_press_timer := if key.hasExtendedKeys then true else d.long_press_timer,
        long_press_layout := if key.hasExtendedKeys then some layout else d.long_press_layout },
      events := [Event.keyPressed key layout, Event.keyAreaPressed layout.activePanel layout] }
  else
    let candidate := Logic.wordCandidateHit layout.wordRibbonCandidates
      layout.wordRibbonGeometry pos
    if candidate.valid then
      { consumed := true, d := { d with active_candidate := candidate },
        events := [Event.wordCandidatePressed candidate layout] }
    else
      { consumed := consumed, d := d, events := [] }

/-- The position used by the release case: the offset translation for the extended panel, the
surface translation otherwise. -/
def releasePos (layout : Layout) (qpos pos : QPoint) : QPoint :=
  if layout.activePanel = Panel.ExtendedPanel then
    translatePosition qpos layout.extendedPanelOffset
  else pos

/-- The `case QKeyEvent::MouseButtonRelease` of the loop body of `handlePressReleaseEvent`, for
one layout and the position already adjusted by `releasePos`. -/
def releaseCase (layout : Layout) (pos : QPoint) (d : GlassPrivate) (consumed : Bool) :
    Handled :=
  let key := Logic.keyHit layout.activeKeys layout.activeKeyAreaGeometry pos d.active_keys
    Logic.FilterBehaviour.AcceptIfInFilter
  if key.valid then
    { consumed := true,
      d := { d with active_keys := ((removeActiveKey (some d.active_keys) key).getD []) },
      events := [Event.keyReleased key layout, Event.keyAreaReleased layout.activePanel layout] }
  else
    let candidate := Logic.wordCandidateHit layout.wordRibbonCandidates
      layout.wordRibbonGeometry pos
    if candidate.valid && decide (candidate = d.active_candidate) then
      { consumed := true, d := { d with active_candidate := WordCandidate.invalid },
        events := [Event.wordCandidateReleased candidate layout] }
    else
      { consumed := consumed, d := d, events := [] }

/-- The position `pos` of the loop body of `handlePressReleaseEvent`: the surface translation
of the event position, replaced in the release case by `releasePos`. -/
def hitPos (tr : Translate) (press : Bool) (qpos : QPoint) (es : Option Surface)
    (layout : Layout) (d : GlassPrivate) : QPoint :=
  if press then tr (targetSurface d layout) qpos es
  else releasePos layout qpos (tr (targetSurface d layout) qpos es)

/-- The `Q_FOREACH` loop of `handlePressReleaseEvent` over the remaining layouts. `press` says
whether the event is a press (otherwise a release), `qpos` is `qme->pos()`. After the case for
a layout, a position inside one of its panel geometries emits the key-area event and returns
`true`; otherwise the loop goes on, and at its end `consumed` is returned. -/
def pressReleaseLoop (tr : Translate) (press : Bool) (qpos : QPoint) (es : Option Surface) :
    List Layout → GlassPrivate → Bool → Handled
  | [], d, consumed => { consumed := consumed, d := d, events := [] }
  | layout :: rest, d, consumed =>
    let pos := hitPos tr press qpos es layout d
    let r := if press then pressCase layout pos d consumed else releaseCase layout pos d consumed
    let panel := panelAt layout pos
    if panel ≠ Panel.NumPanels then
      { consumed := true, d := r.d,
        events := r.events ++
          [if press then Event.keyAreaPressed panel layout
           else Event.keyAreaReleased panel layout] }
    else
      let r2 := pressReleaseLoop tr press qpos es rest r.d r.consumed
      { consumed := r2.consumed, d := r2.d, events := r.events ++ r2.events }

/-- The function `Glass::handlePressReleaseEvent` for a press or release at `qpos`: the last
and press positions are set to the event position, then the layouts are visited. -/
def handlePressReleaseEvent (tr : Translate) (d : GlassPrivate) (press : Bool) (qpos : QPoint)
    (es : Option Surface) : Handled :=
  let d1 := { d with last_pos := qpos, press_pos := qpos }
  pressReleaseLoop tr press qpos es d1.layouts d1 false

/-- The three positions of the move loop body after translation: current, last and press
position. For the extended panel the current one is translated by the panel offset and the
other two are taken as stored. -/
def movePositions (tr : Translate) (d : GlassPrivate) (layout : Layout) (qpos : QPoint)
    (es : Option Surface) : QPoint × QPoint × QPoint :=
  if layout.activePanel = Panel.ExtendedPanel then
    (translatePosition qpos layout.extendedPanelOffset, d.last_pos, d.press_pos)
  else
    (tr (targetSurface d layout) qpos es, tr (targetSurface d layout) d.last_pos es,
     tr (targetSurface d layout) d.press_pos es)

/-- The gesture test of the move loop body (the block under `elapsed() < 250`): the event to
emit when a gesture triggers. The factors 0.33 and 0.50 are read as the exact rationals 33/100
and 1/2; each comparison is written with both sides multiplied by 100 (respectively 2). -/
def gesture (layout : Layout) (rect : QRect) (pos press_pos : QPoint) (elapsed : Int) :
    Option Event :=
  if elapsed < 250 then
    if 100 * pos.y > 100 * press_pos.y - 33 * rect.height
        ∧ 100 * pos.y < 100 * press_pos.y + 33 * rect.height then
      if 100 * pos.x < 100 * press_pos.x - 33 * rect.width then
        some (Event.switchRight layout)
      else if 100 * pos.x > 100 * press_pos.x + 33 * rect.width then
        some (Event.switchLeft layout)
      else none
    else if 100 * pos.x > 100 * press_pos.x - 33 * rect.width
        ∧ 100 * pos.x < 100 * press_pos.x + 33 * rect.width then
      if 2 * pos.y > 2 * press_pos.y + rect.height then
        some Event.keyboardClosed
      else none
    else none
  else none

/-- The key enter/exit part of the move loop body (from `last_key` on), reached when no gesture
is triggered. The result is `none` when the loop goes on to the next layout and the handler
result when the body returns `true`. -/
def moveKeys (layout : Layout) (rect : QRect) (pos last_pos : QPoint) (d : GlassPrivate) :
    Option Handled :=
  let last_key := Logic.keyHit d.active_keys rect last_pos []
    Logic.FilterBehaviour.IgnoreIfInFilter
  let key := Logic.keyHit layout.activeKeys layout.activeKeyAreaGeometry pos []
    Logic.FilterBehaviour.IgnoreIfInFilter
  if last_key ≠ key then
    let d1 := if last_key.valid then
        { d with active_keys := ((removeActiveKey (some d.active_keys) last_key).getD []),
                 long_press_timer := false }
      else d
    let ev1 := if last_key.valid then [Event.keyExited last_key layout] else []
    let d2 := if key.valid then
        { d1 with
          active_keys := d1.active_keys ++ [key],
          long_press_timer := if key.hasExtendedKeys then true else d1.long_press_timer,
          long_press_layout :=
            if key.hasExtendedKeys then some layout else d1.long_press_layout }
      else d1
    let ev2 := if key.valid then [Event.keyEntered key layout] else []
    some { consumed := true, d := d2, events := ev1 ++ ev2 }
  else none

/-- The body of the `Q_FOREACH` loop of the `MouseMove` case for one layout: `none` when the
loop goes on (with the updated private data), the handler result when the body returns. -/
def moveBody (tr : Translate) (qpos : QPoint) (elapsed : Int) (es : Option Surface)
    (layout : Layout) (d : GlassPrivate) : GlassPrivate × Option Handled :=
  let p := movePositions tr d layout qpos es
  let rect := layout.activeKeyAreaGeometry
  let d1 := { d with last_pos := qpos }
  let g := gesture layout rect p.1 p.2.2 elapsed
  let d2 := if g.isSome then { d1 with gesture_triggered := true } else d1
  if d2.gesture_triggered then
    (d2, some { consumed := true, d := { d2 with active_keys := [] },
                events := g.toList ++ d2.active_keys.map (fun k => Event.keyExited k layout) })
  else
    (d2, moveKeys layout rect p.1 p.2.1 d2)

/-- The `Q_FOREACH` loop of the `MouseMove` case over the remaining layouts; when it ends
without a `return`, the `break` leads to the final `return false`. -/
def moveLoop (tr : Translate) (qpos : QPoint) (elapsed : Int) (es : Option Surface) :
    List Layout → GlassPrivate → Handled
  | [], d => { consumed := false, d := d, events := [] }
  | layout :: rest, d =>
    match moveBody tr qpos elapsed es layout d with
    | (_, some r) => r
    | (d1, none) => moveLoop tr qpos elapsed es rest d1

/-- The function `Glass::eventFilter(obj, ev)`; a null `obj` or `ev` is `none`. -/
def eventFilter (tr : Translate) (d : GlassPrivate) (obj : Option Nat) (ev : Option QEvent) :
    Handled :=
  match obj, ev with
  | none, _ => { consumed := false, d := d, events := [] }
  | _, none => { consumed := false, d := d, events := [] }
  | some o, some e =>
    let es := eventSurface d o
    match e with
    | QEvent.Other => { consumed := false, d := d, events := [] }
    | QEvent.MouseButtonPress qpos =>
      let d1 := { d with mouse_captured := true, gesture_triggered := false }
      handlePressReleaseEvent tr d1 true qpos es
    | QEvent.MouseButtonRelease qpos =>
      let d1 := { d with mouse_captured := false, long_press_timer := false }
      if d1.gesture_triggered then { consumed := false, d := d1, events := [] }
      else handlePressReleaseEvent tr d1 false qpos es
    | QEvent.MouseMove qpos elapsed =>
      if d.gesture_triggered then { consumed := false, d := d, events := [] }
      else moveLoop tr qpos elapsed es d.layouts d

/-- The slot `Glass::onLongPressTriggered`, run when the single-shot long-press timer fires
(the timer is then no longer running). -/
def onLongPressTriggered (d : GlassPrivate) : GlassPrivate × List Event :=
  let d1 := { d with mouse_captured := false, long_press_timer := false }
  if d1.gesture_triggered || d1.active_keys.isEmpty || d1.long_press_layout.isNone
      || (d1.long_press_layout.map (fun l => l.activePanel)) == some Panel.ExtendedPanel then
    (d1, [])
  else
    match d1.long_press_layout, d1.active_keys.getLast? with
    | some layout, some last =>
      ({ d1 with active_keys := [] },
       d1.active_keys.map (fun k => Event.keyExited k layout)
         ++ [Event.keyLongPressed last layout])
    | _, _ => (d1, [])

/-- The surface translation that leaves every point where it is. -/
def idTranslate : Translate := fun _ p _ => p

end Glass

namespace Event

/-- Whether an event is `switchLeft` or `switchRight`. -/
def isSwitch : Event → Bool
  | switchLeft _ => true
  | switchRight _ => true
  | _ => false

/-- Whether an event is a gesture event: `switchLeft`, `switchRight` or `keyboardClosed`. -/
def isGesture : Event → Bool
  | switchLeft _ => true
  | switchRight _ => true
  | keyboardClosed => true
  | _ => false

/-- Whether an event is `keyReleased`. -/
def isKeyReleased : Event → Bool
  | keyReleased _ _ => true
  | _ => false

/-- Whether an event is `keyPressed` or `keyReleased`. -/
def isKeyPressedOrReleased : Event → Bool
  | keyPressed _ _ => true
  | keyReleased _ _ => true
  | _ => false

/-- Whether an event is `wordCandidateReleased`. -/
def isWordCandidateReleased : Event → Bool
  | wordCandidateReleased _ _ => true
  | _ => false

/-- Whether an event is `keyAreaReleased`. -/
def isKeyAreaReleased : Event → Bool
  | keyAreaReleased _ _ => true
  | _ => false

end Event

namespace Glass

/-- A sequence of raw events, each delivered to the watched object it names, handled one after
the other by `eventFilter`: the private data at the end and all events emitted, in order. -/
def run (tr : Translate) : GlassPrivate → List (Nat × QEvent) → GlassPrivate × List Event
  | d, [] => (d, [])
  | d, x :: rest =>
    ((run tr (eventFilter tr d (some x.1) (some x.2)).d rest).1,
     (eventFilter tr d (some x.1) (some x.2)).events
       ++ (run tr (eventFilter tr d (some x.1) (some x.2)).d rest).2)

/-- The translated current position of the move loop body for a layout. -/
def movePos (tr : Translate) (d : GlassPrivate) (layout : Layout) (qpos : QPoint)
    (es : Option Surface) : QPoint :=
  (movePositions tr d layout qpos es).1

/-- Two Glass states of one session: same tracked layouts, press position, surfaces and
windows. -/
def sameSession (d d1 : GlassPrivate) : Prop :=
  d1.layouts = d.layouts ∧ d1.press_pos = d.press_pos ∧ d1.surface = d.surface
    ∧ d1.extendedSurface = d.extendedSurface ∧ d1.extendedWindow = d.extendedWindow
    ∧ d1.window = d.window

/-- The function `Glass::clearLayouts`. -/
def clearLayouts (d : GlassPrivate) : GlassPrivate :=
  { d with layouts := [] }

/-- The function `Glass::addLayout`. -/
def addLayout (d : GlassPrivate) (layout : Layout) : GlassPrivate :=
  { d with layouts := d.layouts ++ [layout] }

/-- The window that `setSurface` and `setExtendedSurface` compute:
`surface ? surface->view()->viewport() : 0`. -/
def windowOf (surface : Option Surface) : Option Nat :=
  match surface with
  | some s => s.viewport
  | none => none

/-- The function `Glass::setSurface`: without a window it logs and returns; otherwise the
surface and window are stored and the layouts are cleared. -/
def setSurface (d : GlassPrivate) (surface : Option Surface) : GlassPrivate :=
  match windowOf surface with
  | none => d
  | some window => clearLayouts { d with surface := surface, window := some window }

/-- The function `Glass::setExtendedSurface`: without a window it logs and returns; otherwise
the extended surface and window are stored. -/
def setExtendedSurface (d : GlassPrivate) (surface : Option Surface) : GlassPrivate :=
  match windowOf surface with
  | none => d
  | some window => { d with extendedSurface := surface, extendedWindow := some window }

/-- The events that the move loop body emits for one layout. -/
def bodyEvents (r : GlassPrivate × Option Handled) : List Event :=
  match r.2 with
  | some h => h.events
  | none => []

end Glass

/-! ## Concrete layouts and states used to evaluate the embedding -/

namespace Sample

/-- The empty rectangle `QRect(0, 0, 0, 0)`; it contains no point. -/
def noRect : QRect := { x := 0, y := 0, width := 0, height := 0 }

/-- Key A with rectangle (0, 0, 20, 20). -/
def keyA : Key :=
  { label := 1, rect := { x := 0, y := 0, width := 20, height := 20 }, valid := true,
    hasExtendedKeys := false }

/-- Key B with rectangle (20, 0, 20, 20), right of key A. -/
def keyB : Key :=
  { label := 2, rect := { x := 20, y := 0, width := 20, height := 20 }, valid := true,
    hasExtendedKeys := false }

/-- A layout showing its center panel, 40 x 20, with the keys A and B side by side. -/
def layout : Layout :=
  { ptr := 1, activePanel := Panel.CenterPanel,
    activeKeyAreaGeometry := { x := 0, y := 0, width := 40, height := 20 },
    activeKeys := [keyA, keyB], wordRibbonCandidates := [], wordRibbonGeometry := noRect,
    extendedPanelOffset := { x := 0, y := 0 },
    centerPanelGeometry := { x := 0, y := 0, width := 40, height := 20 },
    extendedPanelGeometry := noRect, leftPanelGeometry := noRect, rightPanelGeometry := noRect }

/-- A layout showing its center panel, 200 x 100, without keys. -/
def wide : Layout :=
  { ptr := 2, activePanel := Panel.CenterPanel,
    activeKeyAreaGeometry := { x := 0, y := 0, width := 200, height := 100 },
    activeKeys := [], wordRibbonCandidates := [], wordRibbonGeometry := noRect,
    extendedPanelOffset := { x := 0, y := 0 },
    centerPanelGeometry := { x := 0, y := 0, width := 200, height := 100 },
    extendedPanelGeometry := noRect, leftPanelGeometry := noRect, rightPanelGeometry := noRect }

/-- A layout showing its extended panel, 40 x 20 with the keys A and B, anchored at the
offset (100, 0). -/
def extended : Layout :=
  { ptr := 3, activePanel := Panel.ExtendedPanel,
    activeKeyAreaGeometry := { x := 0, y := 0, width := 40, height := 20 },
    activeKeys := [keyA, keyB], wordRibbonCandidates := [], wordRibbonGeometry := noRect,
    extendedPanelOffset := { x := 100, y := 0 },
    centerPanelGeometry := noRect,
    extendedPanelGeometry := { x := 0, y := 0, width := 40, height := 20 },
    leftPanelGeometry := noRect, rightPanelGeometry := noRect }

/-- Key C with rectangle (0, 0, 20, 20) and extended keys. -/
def keyC : Key :=
  { label := 3, rect := { x := 0, y := 0, width := 20, height := 20 }, valid := true,
    hasExtendedKeys := true }

/-- A word candidate with rectangle (0, 30, 20, 10). -/
def candidate : WordCandidate :=
  { label := 7, rect := { x := 0, y := 30, width := 20, height := 10 }, valid := true }

/-- A layout showing its center panel, 40 x 20 with the keys C and B, and a word ribbon below
it holding one candidate. -/
def ribbon : Layout :=
  { ptr := 4, activePanel := Panel.CenterPanel,
    activeKeyAreaGeometry := { x := 0, y := 0, width := 40, height := 20 },
    activeKeys := [keyC, keyB], wordRibbonCandidates := [candidate],
    wordRibbonGeometry := { x := 0, y := 30, width := 40, height := 10 },
    extendedPanelOffset := { x := 0, y := 0 },
    centerPanelGeometry := { x := 0, y := 0, width := 40, height := 20 },
    extendedPanelGeometry := noRect, leftPanelGeometry := noRect, rightPanelGeometry := noRect }

/-- A layout showing its center panel, 40 x 20 at (100, 0), without keys. -/
def aside : Layout :=
  { ptr := 5, activePanel := Panel.CenterPanel,
    activeKeyAreaGeometry := { x := 100, y := 0, width := 40, height := 20 },
    activeKeys := [], wordRibbonCandidates := [], wordRibbonGeometry := noRect,
    extendedPanelOffset := { x := 0, y := 0 },
    centerPanelGeometry := { x := 100, y := 0, width := 40, height := 20 },
    extendedPanelGeometry := noRect, leftPanelGeometry := noRect, rightPanelGeometry := noRect }

/-- A freshly constructed Glass that tracks the given layouts. -/
def glass (layouts : List Layout) : GlassPrivate :=
  { GlassPrivate.new with layouts := layouts }

/-- A Glass tracking `wide` after a press at (100, 50) that left key A active. -/
def pressed : GlassPrivate :=
  { glass [wide] with
    press_pos := { x := 100, y := 50 }, last_pos := { x := 100, y := 50 },
    active_keys := [keyA], mouse_captured := true }

end Sample

/-- The transition table of spec section 4.4, row by row; `none` for a pair the table does not
list. -/
def specTransition : QState → Signal → Option QState
  | QState.no_shift, Signal.shiftPressed => some QState.shift
  | QState.no_shift, Signal.autoCapsActivated => some QState.latched_shift
  | QState.shift, Signal.shiftCancelled => some QState.no_shift
  | QState.shift, Signal.shiftReleased => some QState.latched_shift
  | QState.latched_shift, Signal.shiftCancelled => some QState.no_shift
  | QState.latched_shift, Signal.shiftReleased => some QState.caps_lock
  | QState.caps_lock, Signal.shiftReleased => some QState.no_shift
  | _, _ => none

/-- The nine (state, signal) pairs that the table of spec section 4.4 does not list. -/
def unlistedPairs : List (QState × Signal) :=
  [(QState.no_shift, Signal.shiftReleased), (QState.no_shift, Signal.shiftCancelled),
   (QState.shift, Signal.shiftPressed), (QState.shift, Signal.autoCapsActivated),
   (QState.latched_shift, Signal.shiftPressed),
   (QState.latched_shift, Signal.autoCapsActivated),
   (QState.caps_lock, Signal.shiftPressed), (QState.caps_lock, Signal.shiftCancelled),
   (QState.caps_lock, Signal.autoCapsActivated)]

namespace LayoutUpdater

/-- One shift tap driven through the slot: `onActiveKeysChanged` with `ReasonShiftPressed`
followed by `onActiveKeysChanged` with `ReasonShiftReleased`, both for the given layout and
changed panel. -/
def tap (d : LayoutUpdaterPrivate) (layout : Option Nat) (changed : Panel) :
    LayoutUpdaterPrivate :=
  (onActiveKeysChanged
    (onActiveKeysChanged d layout changed Reason.ReasonShiftPressed).d layout changed
    Reason.ReasonShiftReleased).d

/-- The private data after `n` shift taps in a row. -/
def taps (layout : Option Nat) (changed : Panel) : Nat → LayoutUpdaterPrivate →
    LayoutUpdaterPrivate
  | 0, d => d
  | n + 1, d => taps layout changed n (tap d layout changed)

end LayoutUpdater

/-! ## Theorems: LayoutUpdater -/

/-- C1: the machine built by `LayoutUpdater::init` has exactly the seven transitions of the
spec table: from every state and for every signal the registered transition is the table's
row (and there is none where the table has none), so a delivered signal moves the machine to
the table's target or leaves it where it is. After `start()` the machine is in NoShift; from
there `[shiftPressed, shiftReleased, shiftReleased]` visits Shift, LatchedShift, CapsLock, and
`shiftCancelled` delivered in Shift or LatchedShift yields NoShift. -/
theorem C1_transition_table :
    (∀ s sig, (LayoutUpdater.init.findTransition s sig).map (fun t => t.2.2)
        = specTransition s sig)
    ∧ LayoutUpdater.init.transitions.length = 7
    ∧ (∀ s sig, ((LayoutUpdater.inState s).deliver sig).1.configuration
        = some ((specTransition s sig).getD s))
    ∧ LayoutUpdater.started.configuration = some QState.no_shift
    ∧ LayoutUpdater.started.run [Signal.shiftPressed, Signal.shiftReleased, Signal.shiftReleased]
        = [some QState.shift, some QState.latched_shift, some QState.caps_lock]
    ∧ ((LayoutUpdater.inState QState.shift).deliver Signal.shiftCancelled).1.configuration
        = some QState.no_shift
    ∧ ((LayoutUpdater.inState QState.latched_shift).deliver Signal.shiftCancelled).1.configuration
        = some QState.no_shift := by
  refine ⟨?_, by decide, ?_, by decide, by decide, by decide, by decide⟩
  · intro s sig
    cases s <;> cases sig <;> decide
  · intro s sig
    cases s <;> cases sig <;> decide

/-- C2: for every modifier state `s`, every tracked layout and every changed panel,
`onActiveKeysChanged` with `ReasonKeyReleased` emits `shiftCancelled` exactly when `s` is
LatchedShift (and emits nothing else); the state afterwards is NoShift when `s` was
LatchedShift and is `s` itself otherwise. -/
theorem C2_key_released_cancels_only_latched (s : QState) (layout : Option Nat)
    (changed : Panel) :
    (LayoutUpdater.onActiveKeysChanged
        { layout := layout, machine := LayoutUpdater.inState s } layout changed
        Reason.ReasonKeyReleased).signals
      = (if s = QState.latched_shift then [Signal.shiftCancelled] else [])
    ∧ (Signal.shiftCancelled ∈ (LayoutUpdater.onActiveKeysChanged
        { layout := layout, machine := LayoutUpdater.inState s } layout changed
        Reason.ReasonKeyReleased).signals ↔ s = QState.latched_shift)
    ∧ (LayoutUpdater.onActiveKeysChanged
        { layout := layout, machine := LayoutUpdater.inState s } layout changed
        Reason.ReasonKeyReleased).d.machine.configuration
      = some (if s = QState.latched_shift then QState.no_shift else s) := by
  cases s <;> simp [LayoutUpdater.onActiveKeysChanged, LayoutUpdater.emitted,
    LayoutUpdater.inState, LayoutUpdater.deliverAll]
  all_goals decide

/-- C10 (the code at the failing input): with the machine in NoShift and the tracked layout,
`onActiveKeysChanged` called for `ExtendedPanel` with `ReasonShiftPressed` logs its warning
and still emits `shiftPressed`, which moves the machine to Shift and runs
`switchLayoutToUpper`. -/
theorem C10_unsupported_panel_still_handled :
    LayoutUpdater.onActiveKeysChanged
        { layout := some 0, machine := LayoutUpdater.inState QState.no_shift } (some 0)
        Panel.ExtendedPanel Reason.ReasonShiftPressed
      = { d := { layout := some 0, machine := LayoutUpdater.inState QState.shift },
          signals := [Signal.shiftPressed],
          slots := [Slot.switchLayoutToUpper],
          warnings := 1 } := by
  decide

/-! ## Theorems: Glass, gestures -/

/-- The scaled integer comparison `100 * b - 33 * h < 100 * a` is the rational comparison
`b - 33/100 * h < a`. -/
theorem scaled_gt_minus (a b h : Int) :
    100 * a > 100 * b - 33 * h ↔ (b : ℚ) - 33 / 100 * h < a := by
  constructor
  · intro hh
    have h1 : ((100 * b - 33 * h : Int) : ℚ) < ((100 * a : Int) : ℚ) := by exact_mod_cast hh
    push_cast at h1
    linarith
  · intro hh
    have h1 : ((100 * b - 33 * h : Int) : ℚ) < ((100 * a : Int) : ℚ) := by
      push_cast
      linarith
    exact_mod_cast h1

/-- The scaled integer comparison `100 * a < 100 * b + 33 * h` is the rational comparison
`a < b + 33/100 * h`. -/
theorem scaled_lt_plus (a b h : Int) :
    100 * a < 100 * b + 33 * h ↔ (a : ℚ) < b + 33 / 100 * h := by
  constructor
  · intro hh
    have h1 : ((100 * a : Int) : ℚ) < ((100 * b + 33 * h : Int) : ℚ) := by exact_mod_cast hh
    push_cast at h1
    linarith
  · intro hh
    have h1 : ((100 * a : Int) : ℚ) < ((100 * b + 33 * h : Int) : ℚ) := by
      push_cast
      linarith
    exact_mod_cast h1

/-- The scaled integer comparison `100 * a < 100 * b - 33 * h` is the rational comparison
`a < b - 33/100 * h`. -/
theorem scaled_lt_minus (a b h : Int) :
    100 * a < 100 * b - 33 * h ↔ (a : ℚ) < b - 33 / 100 * h := by
  constructor
  · intro hh
    have h1 : ((100 * a : Int) : ℚ) < ((100 * b - 33 * h : Int) : ℚ) := by exact_mod_cast hh
    push_cast at h1
    linarith
  · intro hh
    have h1 : ((100 * a : Int) : ℚ) < ((100 * b - 33 * h : Int) : ℚ) := by
      push_cast
      linarith
    exact_mod_cast h1

/-- The scaled integer comparison `100 * a > 100 * b + 33 * h` is the rational comparison
`b + 33/100 * h < a`. -/
theorem scaled_gt_plus (a b h : Int) :
    100 * a > 100 * b + 33 * h ↔ (b : ℚ) + 33 / 100 * h < a := by
  constructor
  · intro hh
    have h1 : ((100 * b + 33 * h : Int) : ℚ) < ((100 * a : Int) : ℚ) := by exact_mod_cast hh
    push_cast at h1
    linarith
  · intro hh
    have h1 : ((100 * b + 33 * h : Int) : ℚ) < ((100 * a : Int) : ℚ) := by
      push_cast
      linarith
    exact_mod_cast h1

/-- The scaled integer comparison `2 * a > 2 * b + h` is the rational comparison
`b + 1/2 * h < a`. -/
theorem scaled_gt_half (a b h : Int) :
    2 * a > 2 * b + h ↔ (b : ℚ) + 1 / 2 * h < a := by
  constructor
  · intro hh
    have h1 : ((2 * b + h : Int) : ℚ) < ((2 * a : Int) : ℚ) := by exact_mod_cast hh
    push_cast at h1
    linarith
  · intro hh
    have h1 : ((2 * b + h : Int) : ℚ) < ((2 * a : Int) : ℚ) := by
      push_cast
      linarith
    exact_mod_cast h1

/-- The move loop body when the gesture test fires: the flag is set, the gesture event is
followed by a key-exit for every active key, the active keys are cleared and the body
returns `true`. -/
theorem moveBody_of_gesture (tr : Translate) (qpos : QPoint) (elapsed : Int)
    (es : Option Surface) (layout : Layout) (d : GlassPrivate) (e : Event)
    (hg : Glass.gesture layout layout.activeKeyAreaGeometry
      (Glass.movePositions tr d layout qpos es).1
      (Glass.movePositions tr d layout qpos es).2.2 elapsed = some e) :
    Glass.moveBody tr qpos elapsed es layout d
      = ({ d with last_pos := qpos, gesture_triggered := true },
         some { consumed := true,
                d := { d with last_pos := qpos, gesture_triggered := true, active_keys := [] },
                events := e :: d.active_keys.map (fun k => Event.keyExited k layout) }) := by
  simp [Glass.moveBody, hg]

/-- The move loop body when the gesture test does not fire and no gesture was triggered
before: only the last position is updated and the key enter/exit part decides. -/
theorem moveBody_of_no_gesture (tr : Translate) (qpos : QPoint) (elapsed : Int)
    (es : Option Surface) (layout : Layout) (d : GlassPrivate)
    (hd : d.gesture_triggered = false)
    (hg : Glass.gesture layout layout.activeKeyAreaGeometry
      (Glass.movePositions tr d layout qpos es).1
      (Glass.movePositions tr d layout qpos es).2.2 elapsed = none) :
    Glass.moveBody tr qpos elapsed es layout d
      = ({ d with last_pos := qpos },
         Glass.moveKeys layout layout.activeKeyAreaGeometry
           (Glass.movePositions tr d layout qpos es).1
           (Glass.movePositions tr d layout qpos es).2.1 { d with last_pos := qpos }) := by
  simp [Glass.moveBody, hg, hd]

/-- The gesture test yields `keyboardClosed` exactly under the dismiss condition, whatever the
sign of the rectangle's width and height. -/
theorem gesture_closed_iff (layout : Layout) (rect : QRect) (pos press : QPoint)
    (elapsed : Int) :
    Glass.gesture layout rect pos press elapsed = some Event.keyboardClosed
      ↔ (elapsed < 250
          ∧ (100 * pos.x > 100 * press.x - 33 * rect.width
              ∧ 100 * pos.x < 100 * press.x + 33 * rect.width)
          ∧ 2 * pos.y > 2 * press.y + rect.height) := by
  unfold Glass.gesture
  split_ifs <;> simp <;> omega

/-- The gesture test yields `switchRight` exactly when the vertical displacement is within the
band and the position is left of the band. -/
theorem gesture_right_iff (layout l : Layout) (rect : QRect) (pos press : QPoint)
    (elapsed : Int) :
    Glass.gesture layout rect pos press elapsed = some (Event.switchRight l)
      ↔ (l = layout ∧ elapsed < 250
          ∧ (100 * pos.y > 100 * press.y - 33 * rect.height
              ∧ 100 * pos.y < 100 * press.y + 33 * rect.height)
          ∧ 100 * pos.x < 100 * press.x - 33 * rect.width) := by
  constructor
  · intro h
    unfold Glass.gesture at h
    split_ifs at h with h1 h2 h3 h4 <;> simp at h
    exact ⟨h.symm, h1, h2, h3⟩
  · rintro ⟨rfl, h1, h2, h3⟩
    unfold Glass.gesture
    rw [if_pos h1, if_pos h2, if_pos h3]

/-- The gesture test yields `switchLeft` exactly when the vertical displacement is within the
band and the position is right of the band and not left of it. -/
theorem gesture_left_iff (layout l : Layout) (rect : QRect) (pos press : QPoint)
    (elapsed : Int) :
    Glass.gesture layout rect pos press elapsed = some (Event.switchLeft l)
      ↔ (l = layout ∧ elapsed < 250
          ∧ (100 * pos.y > 100 * press.y - 33 * rect.height
              ∧ 100 * pos.y < 100 * press.y + 33 * rect.height)
          ∧ ¬ (100 * pos.x < 100 * press.x - 33 * rect.width)
          ∧ 100 * pos.x > 100 * press.x + 33 * rect.width) := by
  constructor
  · intro h
    unfold Glass.gesture at h
    split_ifs at h with h1 h2 h3 h4 <;> simp at h
    exact ⟨h.symm, h1, h2, h3, h4⟩
  · rintro ⟨rfl, h1, h2, h3, h4⟩
    unfold Glass.gesture
    rw [if_pos h1, if_pos h2, if_neg h3, if_pos h4]

/-- The key enter/exit part emits only `keyExited` and `keyEntered` events. -/
theorem moveKeys_events (layout : Layout) (rect : QRect) (pos last : QPoint)
    (d : GlassPrivate) (r : Glass.Handled)
    (h : Glass.moveKeys layout rect pos last d = some r) :
    ∀ e ∈ r.events, (∃ k, e = Event.keyExited k layout) ∨ (∃ k, e = Event.keyEntered k layout) := by
  unfold Glass.moveKeys at h
  simp only at h
  split_ifs at h <;> simp only [Option.some.injEq] at h <;> subst h <;> intro e he <;>
    simp at he <;> aesop

/-- Key-exit events are no switch events. -/
theorem filter_isSwitch_exits (ks : List Key) (layout : Layout) :
    (ks.map (fun k => Event.keyExited k layout)).filter Event.isSwitch = [] := by
  induction ks with
  | nil => rfl
  | cons k ks ih => simp [List.filter, Event.isSwitch]

/-- C3: a pointer-move handled while no gesture is triggered and `elapsed < 250`, with `pos`
and `press` the translated current and press positions for the first tracked layout and
`w x h` its active key-area rectangle. When `press.y - 0.33h < pos.y < press.y + 0.33h`: if
`pos.x < press.x - 0.33w` the handler emits `switchRight(layout)` once, and if instead
`pos.x > press.x + 0.33w` it emits `switchLeft(layout)` once; in both cases the flag
`gesture_triggered` is set, `keyExited` follows for every active key in order, the active keys
are cleared and `true` is returned, whatever the remaining layouts are. -/
theorem C3_swipe_switches_panel (tr : Translate) (d : GlassPrivate) (obj : Nat)
    (qpos : QPoint) (elapsed : Int) (layout : Layout) (rest : List Layout)
    (pos last press : QPoint)
    (hl : d.layouts = layout :: rest)
    (hd : d.gesture_triggered = false)
    (ht : elapsed < 250)
    (hp : Glass.movePositions tr d layout qpos (Glass.eventSurface d obj) = (pos, last, press))
    (hy1 : (press.y : ℚ) - 33 / 100 * layout.activeKeyAreaGeometry.height < pos.y)
    (hy2 : (pos.y : ℚ) < press.y + 33 / 100 * layout.activeKeyAreaGeometry.height) :
    ((pos.x : ℚ) < press.x - 33 / 100 * layout.activeKeyAreaGeometry.width →
      Glass.eventFilter tr d (some obj) (some (QEvent.MouseMove qpos elapsed))
          = { consumed := true,
              d := { d with last_pos := qpos, gesture_triggered := true, active_keys := [] },
              events := Event.switchRight layout
                :: d.active_keys.map (fun k => Event.keyExited k layout) }
        ∧ (Glass.eventFilter tr d (some obj) (some (QEvent.MouseMove qpos elapsed))).events.filter
            Event.isSwitch = [Event.switchRight layout])
    ∧ (¬ ((pos.x : ℚ) < press.x - 33 / 100 * layout.activeKeyAreaGeometry.width) →
       (press.x : ℚ) + 33 / 100 * layout.activeKeyAreaGeometry.width < pos.x →
      Glass.eventFilter tr d (some obj) (some (QEvent.MouseMove qpos elapsed))
          = { consumed := true,
              d := { d with last_pos := qpos, gesture_triggered := true, active_keys := [] },
              events := Event.switchLeft layout
                :: d.active_keys.map (fun k => Event.keyExited k layout) }
        ∧ (Glass.eventFilter tr d (some obj) (some (QEvent.MouseMove qpos elapsed))).events.filter
            Event.isSwitch = [Event.switchLeft layout]) := by
  have hv := (scaled_gt_minus pos.y press.y layout.activeKeyAreaGeometry.height).2 hy1
  have hv2 := (scaled_lt_plus pos.y press.y layout.activeKeyAreaGeometry.height).2 hy2
  constructor
  · intro hx
    have hg : Glass.gesture layout layout.activeKeyAreaGeometry
        (Glass.movePositions tr d layout qpos (Glass.eventSurface d obj)).1
        (Glass.movePositions tr d layout qpos (Glass.eventSurface d obj)).2.2 elapsed
          = some (Event.switchRight layout) := by
      rw [hp]
      exact (gesture_right_iff _ _ _ _ _ _).2 ⟨rfl, ht, ⟨hv, hv2⟩, (scaled_lt_minus _ _ _).2 hx⟩
    have he : Glass.eventFilter tr d (some obj) (some (QEvent.MouseMove qpos elapsed))
          = { consumed := true,
              d := { d with last_pos := qpos, gesture_triggered := true, active_keys := [] },
              events := Event.switchRight layout
                :: d.active_keys.map (fun k => Event.keyExited k layout) } := by
      simp [Glass.eventFilter, hd, hl, Glass.moveLoop, moveBody_of_gesture _ _ _ _ _ _ _ hg]
    refine ⟨he, ?_⟩
    rw [he]
    simp [List.filter, Event.isSwitch, filter_isSwitch_exits]
  · intro hnx hx
    have hnx2 : ¬ (100 * pos.x < 100 * press.x - 33 * layout.activeKeyAreaGeometry.width) :=
      fun h => hnx ((scaled_lt_minus _ _ _).1 h)
    have hg : Glass.gesture layout layout.activeKeyAreaGeometry
        (Glass.movePositions tr d layout qpos (Glass.eventSurface d obj)).1
        (Glass.movePositions tr d layout qpos (Glass.eventSurface d obj)).2.2 elapsed
          = some (Event.switchLeft layout) := by
      rw [hp]
      exact (gesture_left_iff _ _ _ _ _ _).2
        ⟨rfl, ht, ⟨hv, hv2⟩, hnx2, (scaled_gt_plus _ _ _).2 hx⟩
    have he : Glass.eventFilter tr d (some obj) (some (QEvent.MouseMove qpos elapsed))
          = { consumed := true,
              d := { d with last_pos := qpos, gesture_triggered := true, active_keys := [] },
              events := Event.switchLeft layout
                :: d.active_keys.map (fun k => Event.keyExited k layout) } := by
      simp [Glass.eventFilter, hd, hl, Glass.moveLoop, moveBody_of_gesture _ _ _ _ _ _ _ hg]
    refine ⟨he, ?_⟩
    rw [he]
    simp [List.filter, Event.isSwitch, filter_isSwitch_exits]

/-- C3 at a concrete input: after a press at (100, 50) on the 200 x 100 layout with key A
active, a move to (20, 50) after 100 ms emits `switchRight` and then `keyExited(A)`, sets the
flag and clears the active keys. -/
theorem C3_swipe_switches_panel_witness :
    Glass.eventFilter Glass.idTranslate Sample.pressed (some 0)
        (some (QEvent.MouseMove { x := 20, y := 50 } 100))
      = { consumed := true,
          d := { Sample.pressed with
            last_pos := { x := 20, y := 50 }, gesture_triggered := true, active_keys := [] },
          events := [Event.switchRight Sample.wide, Event.keyExited Sample.keyA Sample.wide] } :=
  ((C3_swipe_switches_panel Glass.idTranslate Sample.pressed 0 { x := 20, y := 50 } 100
    Sample.wide [] { x := 20, y := 50 } { x := 100, y := 50 } { x := 100, y := 50 }
    rfl rfl (by decide) rfl (by norm_num [Sample.wide]) (by norm_num [Sample.wide])).1
    (by norm_num [Sample.wide])).1

/-- Key-exit events are not `keyboardClosed`. -/
theorem closed_not_mem_exits (ks : List Key) (layout : Layout) :
    Event.keyboardClosed ∉ ks.map (fun k => Event.keyExited k layout) := by
  simp

/-- The move loop body emits `keyboardClosed` exactly when the gesture test yields it. -/
theorem closed_mem_bodyEvents_iff (tr : Translate) (qpos : QPoint) (elapsed : Int)
    (es : Option Surface) (layout : Layout) (d : GlassPrivate)
    (hd : d.gesture_triggered = false) :
    Event.keyboardClosed ∈ Glass.bodyEvents (Glass.moveBody tr qpos elapsed es layout d)
      ↔ Glass.gesture layout layout.activeKeyAreaGeometry
          (Glass.movePositions tr d layout qpos es).1
          (Glass.movePositions tr d layout qpos es).2.2 elapsed = some Event.keyboardClosed := by
  cases hg : Glass.gesture layout layout.activeKeyAreaGeometry
      (Glass.movePositions tr d layout qpos es).1
      (Glass.movePositions tr d layout qpos es).2.2 elapsed with
  | none =>
    rw [moveBody_of_no_gesture tr qpos elapsed es layout d hd hg]
    simp only [Glass.bodyEvents, reduceCtorEq, iff_false]
    cases hk : Glass.moveKeys layout layout.activeKeyAreaGeometry
        (Glass.movePositions tr d layout qpos es).1
        (Glass.movePositions tr d layout qpos es).2.1 { d with last_pos := qpos } with
    | none => simp
    | some r =>
      intro hmem
      rcases moveKeys_events _ _ _ _ _ _ hk _ hmem with ⟨k, hk2⟩ | ⟨k, hk2⟩ <;> cases hk2
  | some e =>
    rw [moveBody_of_gesture tr qpos elapsed es layout d e hg]
    simp only [Glass.bodyEvents, List.mem_cons, Option.some.injEq]
    constructor
    · rintro (h | h)
      · exact h.symm
      · exact absurd h (closed_not_mem_exits _ _)
    · intro h
      exact Or.inl h.symm

/-- C4: for a pointer-move handled against the first tracked layout while no gesture is
triggered, with `pos` and `press` the translated current and press positions and `w x h` the
active rectangle (of any sign), the body run for that layout emits `keyboardClosed` if and
only if `elapsed < 250`, `press.x - 0.33w < pos.x < press.x + 0.33w` and
`pos.y > press.y + 0.5h`; in that case the handler returns `true` with the flag
`gesture_triggered` set, `keyboardClosed` followed by the key-exits emitted and the active
keys cleared. -/
theorem C4_dismiss_iff (tr : Translate) (d : GlassPrivate) (obj : Nat)
    (qpos : QPoint) (elapsed : Int) (layout : Layout) (rest : List Layout)
    (pos last press : QPoint)
    (hl : d.layouts = layout :: rest)
    (hd : d.gesture_triggered = false)
    (hp : Glass.movePositions tr d layout qpos (Glass.eventSurface d obj) = (pos, last, press)) :
    (Event.keyboardClosed ∈ Glass.bodyEvents
        (Glass.moveBody tr qpos elapsed (Glass.eventSurface d obj) layout d)
      ↔ (elapsed < 250
          ∧ ((press.x : ℚ) - 33 / 100 * layout.activeKeyAreaGeometry.width < pos.x
              ∧ (pos.x : ℚ) < press.x + 33 / 100 * layout.activeKeyAreaGeometry.width)
          ∧ (press.y : ℚ) + 1 / 2 * layout.activeKeyAreaGeometry.height < pos.y))
    ∧ ((elapsed < 250
          ∧ ((press.x : ℚ) - 33 / 100 * layout.activeKeyAreaGeometry.width < pos.x
              ∧ (pos.x : ℚ) < press.x + 33 / 100 * layout.activeKeyAreaGeometry.width)
          ∧ (press.y : ℚ) + 1 / 2 * layout.activeKeyAreaGeometry.height < pos.y) →
        Glass.eventFilter tr d (some obj) (some (QEvent.MouseMove qpos elapsed))
          = { consumed := true,
              d := { d with last_pos := qpos, gesture_triggered := true, active_keys := [] },
              events := Event.keyboardClosed
                :: d.active_keys.map (fun k => Event.keyExited k layout) }) := by
  have key : Glass.gesture layout layout.activeKeyAreaGeometry
        (Glass.movePositions tr d layout qpos (Glass.eventSurface d obj)).1
        (Glass.movePositions tr d layout qpos (Glass.eventSurface d obj)).2.2 elapsed
          = some Event.keyboardClosed
      ↔ (elapsed < 250
          ∧ ((press.x : ℚ) - 33 / 100 * layout.activeKeyAreaGeometry.width < pos.x
              ∧ (pos.x : ℚ) < press.x + 33 / 100 * layout.activeKeyAreaGeometry.width)
          ∧ (press.y : ℚ) + 1 / 2 * layout.activeKeyAreaGeometry.height < pos.y) := by
    rw [hp, gesture_closed_iff, scaled_gt_minus, scaled_lt_plus, scaled_gt_half]
  constructor
  · rw [closed_mem_bodyEvents_iff tr qpos elapsed _ layout d hd]
    exact key
  · intro hc
    have hg := key.2 hc
    simp [Glass.eventFilter, hd, hl, Glass.moveLoop, moveBody_of_gesture _ _ _ _ _ _ _ hg]

/-- C4 at a concrete input: after a press at (100, 50) on the 200 x 100 layout with key A
active, a move to (100, 101) after 100 ms satisfies the dismiss condition, so
`keyboardClosed` is emitted, followed by `keyExited(A)`. -/
theorem C4_dismiss_iff_witness :
    Glass.eventFilter Glass.idTranslate Sample.pressed (some 0)
        (some (QEvent.MouseMove { x := 100, y := 101 } 100))
      = { consumed := true,
          d := { Sample.pressed with
            last_pos := { x := 100, y := 101 }, gesture_triggered := true, active_keys := [] },
          events := [Event.keyboardClosed, Event.keyExited Sample.keyA Sample.wide] } :=
  (C4_dismiss_iff Glass.idTranslate Sample.pressed 0 { x := 100, y := 101 } 100
    Sample.wide [] { x := 100, y := 101 } { x := 100, y := 50 } { x := 100, y := 50 }
    rfl rfl rfl).2
    ⟨by decide, ⟨by norm_num [Sample.wide], by norm_num [Sample.wide]⟩,
      by norm_num [Sample.wide]⟩

/-! ## Theorems: Glass, long press -/

/-- C8: when the long-press timer fires with `gesture_triggered` false, a non-empty active-key
list, a non-null long-press layout `L` and `L` not showing the extended panel, the events are
`keyExited(k, L)` for every active key in insertion order followed by `keyLongPressed` for the
last active key, and the active keys are cleared; if one of the four conditions fails, no event
is emitted and the active keys are unchanged. -/
theorem C8_long_press_fire (d : GlassPrivate) :
    (∀ (L : Layout) (hne : d.active_keys ≠ []),
        d.gesture_triggered = false → d.long_press_layout = some L →
        L.activePanel ≠ Panel.ExtendedPanel →
        (Glass.onLongPressTriggered d).2
            = d.active_keys.map (fun k => Event.keyExited k L)
                ++ [Event.keyLongPressed (d.active_keys.getLast hne) L]
          ∧ (Glass.onLongPressTriggered d).1.active_keys = [])
    ∧ ((d.gesture_triggered = true ∨ d.active_keys = [] ∨ d.long_press_layout = none
          ∨ ∃ L, d.long_press_layout = some L ∧ L.activePanel = Panel.ExtendedPanel) →
        (Glass.onLongPressTriggered d).2 = []
          ∧ (Glass.onLongPressTriggered d).1.active_keys = d.active_keys) := by
  constructor
  · intro L hne hg hL hp
    have hlast : d.active_keys.getLast? = some (d.active_keys.getLast hne) :=
      List.getLast?_eq_getLast _ hne
    simp [Glass.onLongPressTriggered, hg, hL, hp, hne, hlast]
  · rintro (h | h | h | ⟨L, h1, h2⟩)
    · simp [Glass.onLongPressTriggered, h]
    · simp [Glass.onLongPressTriggered, h]
    · simp [Glass.onLongPressTriggered, h]
    · simp [Glass.onLongPressTriggered, h1, h2]

/-- C8 at a concrete input: with key A active and the center-panel layout recorded, the timer
emits `keyExited(A)` and then `keyLongPressed(A)` and clears the active keys. -/
theorem C8_long_press_fire_witness :
    (Glass.onLongPressTriggered
        { Sample.glass [Sample.layout] with
          active_keys := [Sample.keyA], long_press_layout := some Sample.layout }).2
      = [Event.keyExited Sample.keyA Sample.layout,
         Event.keyLongPressed Sample.keyA Sample.layout]
    ∧ (Glass.onLongPressTriggered
        { Sample.glass [Sample.layout] with
          active_keys := [Sample.keyA], long_press_layout := some Sample.layout }).1.active_keys
      = [] :=
  (C8_long_press_fire
    { Sample.glass [Sample.layout] with
      active_keys := [Sample.keyA], long_press_layout := some Sample.layout }).1
    Sample.layout (by decide) rfl rfl (by decide)

/-! ## Theorems: Glass, press and release -/

/-- With the policy "accept if in filter" and an empty filter, no key is hit. -/
theorem keyHit_accept_nil (keys : List Key) (geometry : QRect) (pos : QPoint) :
    Logic.keyHit keys geometry pos [] Logic.FilterBehaviour.AcceptIfInFilter = Key.invalid := by
  unfold Logic.keyHit
  split_ifs
  · have : keys.find? (fun k => k.rect.contains pos &&
        Logic.accepted [] Logic.FilterBehaviour.AcceptIfInFilter k) = none := by
      simp [Logic.accepted]
    rw [this]
  · rfl

/-- Hit-testing returns the first candidate whose rectangle contains the point when the region
contains the point and that candidate passes the filter test. -/
theorem keyHit_first (pre post : List Key) (A : Key) (geometry : QRect) (pos : QPoint)
    (filtered : List Key) (behaviour : Logic.FilterBehaviour)
    (hgeo : geometry.contains pos = true)
    (hpre : ∀ k ∈ pre, k.rect.contains pos = false)
    (hA : A.rect.contains pos = true)
    (hf : Logic.accepted filtered behaviour A = true) :
    Logic.keyHit (pre ++ A :: post) geometry pos filtered behaviour = A := by
  unfold Logic.keyHit
  rw [if_pos hgeo]
  have : (pre ++ A :: post).find? (fun k => k.rect.contains pos &&
      Logic.accepted filtered behaviour k) = some A := by
    induction pre with
    | nil => simp [List.find?, hA, hf]
    | cons k ks ih =>
      have hk : k.rect.contains pos = false := hpre k (List.mem_cons_self _ _)
      simp only [List.cons_append, List.find?, hk, Bool.false_and]
      exact ih (fun x hx => hpre x (List.mem_cons_of_mem _ hx))
  rw [this]

/-- The release case with no active key and no captured candidate emits nothing and changes
nothing. -/
theorem releaseCase_idle (layout : Layout) (pos : QPoint) (d : GlassPrivate) (consumed : Bool)
    (hk : d.active_keys = []) (hc : d.active_candidate = WordCandidate.invalid) :
    Glass.releaseCase layout pos d consumed = { consumed := consumed, d := d, events := [] } := by
  unfold Glass.releaseCase
  simp only [hk, keyHit_accept_nil, hc]
  have h1 : Key.invalid.valid = false := rfl
  simp only [h1, Bool.false_eq_true, if_false]
  split_ifs with h2
  · exfalso
    simp only [Bool.and_eq_true, decide_eq_true_eq] at h2
    rw [h2.2] at h2
    exact absurd h2.1 (by decide)
  · rfl

/-- The release loop with no active key and no captured candidate: the first layout with a
panel geometry containing the position gets `keyAreaReleased`, and nothing else happens. -/
theorem releaseLoop_idle (tr : Translate) (qpos : QPoint) (es : Option Surface)
    (d : GlassPrivate) (hk : d.active_keys = [])
    (hc : d.active_candidate = WordCandidate.invalid) :
    ∀ (layouts : List Layout) (consumed : Bool),
      Glass.pressReleaseLoop tr false qpos es layouts d consumed
        = match layouts.find? (fun l =>
              decide (Glass.panelAt l (Glass.hitPos tr false qpos es l d) ≠ Panel.NumPanels)) with
          | some l =>
            { consumed := true, d := d,
              events := [Event.keyAreaReleased
                (Glass.panelAt l (Glass.hitPos tr false qpos es l d)) l] }
          | none => { consumed := consumed, d := d, events := [] } := by
  intro layouts
  induction layouts with
  | nil => intro consumed; rfl
  | cons l rest ih =>
    intro consumed
    by_cases hp : Glass.panelAt l (Glass.hitPos tr false qpos es l d) = Panel.NumPanels
    · simp [Glass.pressReleaseLoop, releaseCase_idle _ _ _ _ hk hc, hp, ih]
    · simp [Glass.pressReleaseLoop, releaseCase_idle _ _ _ _ hk hc, hp]

/-- C9 (the claim fails as stated): on a freshly constructed Glass tracking the sample layout,
with no active key, no captured candidate and no gesture, a pointer-up at (10, 10), inside the
center panel geometry, emits `keyAreaReleased(CenterPanel, layout)`. -/
theorem C9_release_emits_area_event :
    (Sample.glass [Sample.layout]).active_keys = []
    ∧ (Sample.glass [Sample.layout]).active_candidate = WordCandidate.invalid
    ∧ (Sample.glass [Sample.layout]).gesture_triggered = false
    ∧ (Glass.eventFilter Glass.idTranslate (Sample.glass [Sample.layout]) (some 0)
        (some (QEvent.MouseButtonRelease { x := 10, y := 10 }))).events
      = [Event.keyAreaReleased Panel.CenterPanel Sample.layout] := by
  decide

/-- C9 (amended): for every Glass state with an empty active-key list, no captured word
candidate and `gesture_triggered` false, every release position and every list of tracked
layouts, a pointer-up emits no `keyReleased` and no `wordCandidateReleased`; every emitted
event is a `keyAreaReleased(panel, layout)` for a tracked layout one of whose panel geometries
contains the translated position, at most one event is emitted, none at all when no tracked
layout has such a panel, and the active keys and the captured candidate are unchanged. -/
theorem C9_release_without_press (tr : Translate) (d : GlassPrivate) (obj : Nat)
    (qpos : QPoint)
    (hk : d.active_keys = []) (hc : d.active_candidate = WordCandidate.invalid)
    (hg : d.gesture_triggered = false) :
    (∀ e ∈ (Glass.eventFilter tr d (some obj) (some (QEvent.MouseButtonRelease qpos))).events,
        e.isKeyReleased = false ∧ e.isWordCandidateReleased = false)
    ∧ (∀ e ∈ (Glass.eventFilter tr d (some obj) (some (QEvent.MouseButtonRelease qpos))).events,
        ∃ l ∈ d.layouts,
          Glass.panelAt l (Glass.hitPos tr false qpos (Glass.eventSurface d obj) l d)
              ≠ Panel.NumPanels
          ∧ e = Event.keyAreaReleased
              (Glass.panelAt l (Glass.hitPos tr false qpos (Glass.eventSurface d obj) l d)) l)
    ∧ (Glass.eventFilter tr d (some obj) (some (QEvent.MouseButtonRelease qpos))).events.length
        ≤ 1
    ∧ ((∀ l ∈ d.layouts,
          Glass.panelAt l (Glass.hitPos tr false qpos (Glass.eventSurface d obj) l d)
              = Panel.NumPanels) →
        (Glass.eventFilter tr d (some obj) (some (QEvent.MouseButtonRelease qpos))).events = [])
    ∧ (Glass.eventFilter tr d (some obj) (some (QEvent.MouseButtonRelease qpos))).d.active_keys
        = []
    ∧ (Glass.eventFilter tr d (some obj)
        (some (QEvent.MouseButtonRelease qpos))).d.active_candidate = WordCandidate.invalid := by
  have hev : Glass.eventFilter tr d (some obj) (some (QEvent.MouseButtonRelease qpos))
      = Glass.pressReleaseLoop tr false qpos (Glass.eventSurface d obj) d.layouts
          { d with mouse_captured := false, long_press_timer := false,
                   last_pos := qpos, press_pos := qpos } false := by
    simp [Glass.eventFilter, hg, Glass.handlePressReleaseEvent]
  have hloop := releaseLoop_idle tr qpos (Glass.eventSurface d obj)
    { d with mouse_captured := false, long_press_timer := false,
             last_pos := qpos, press_pos := qpos } hk hc d.layouts false
  rw [hev, hloop]
  have hpos : ∀ l, Glass.hitPos tr false qpos (Glass.eventSurface d obj) l
      { d with mouse_captured := false, long_press_timer := false,
               last_pos := qpos, press_pos := qpos }
      = Glass.hitPos tr false qpos (Glass.eventSurface d obj) l d := fun _ => rfl
  simp only [hpos]
  cases hf : d.layouts.find? (fun l =>
      decide (Glass.panelAt l (Glass.hitPos tr false qpos (Glass.eventSurface d obj) l d)
        ≠ Panel.NumPanels)) with
  | none =>
    simp [hk, hc]
  | some l =>
    have hmem := List.mem_of_find?_eq_some hf
    have hprop := List.find?_some hf
    simp only [decide_eq_true_eq] at hprop
    refine ⟨?_, ?_, ?_, ?_, ?_, ?_⟩
    · intro e he
      simp only [List.mem_singleton] at he
      subst he
      exact ⟨rfl, rfl⟩
    · intro e he
      simp only [List.mem_singleton] at he
      subst he
      exact ⟨l, hmem, hprop, rfl⟩
    · simp
    · intro hall
      exact absurd (hall l hmem) hprop
    · simpa using hk
    · simpa using hc

/-- C9 (amended) at a concrete input: a pointer-up at (100, 100), outside every panel of the
sample layout, on a freshly constructed Glass emits no event. -/
theorem C9_release_without_press_witness :
    (Glass.eventFilter Glass.idTranslate (Sample.glass [Sample.layout]) (some 0)
        (some (QEvent.MouseButtonRelease { x := 100, y := 100 }))).events = [] :=
  (C9_release_without_press Glass.idTranslate (Sample.glass [Sample.layout]) 0
    { x := 100, y := 100 } rfl rfl rfl).2.2.2.1 (by decide)

/-- C7: one tracked layout `L` that does not show the extended panel, identity surface
translation, no active key, and a valid key `A` that is the first candidate of `L` whose
rectangle contains `p`, with `p` inside the key area of `L`. A pointer-down at `p` followed by
a pointer-up at `p` emits `keyPressed(A)` and then `keyReleased(A)` as the only
`keyPressed`/`keyReleased` events, and the active-key list is empty afterwards. -/
theorem C7_tap_presses_and_releases (tr : Translate) (d : GlassPrivate) (obj obj2 : Nat)
    (L : Layout) (A : Key) (p : QPoint) (pre post : List Key)
    (htr : ∀ s q e, tr s q e = q)
    (hl : d.layouts = [L])
    (hpanel : L.activePanel ≠ Panel.ExtendedPanel)
    (hk : d.active_keys = [])
    (hvalid : A.valid = true)
    (hgeo : L.activeKeyAreaGeometry.contains p = true)
    (hkeys : L.activeKeys = pre ++ A :: post)
    (hpre : ∀ k ∈ pre, k.rect.contains p = false)
    (hA : A.rect.contains p = true) :
    ((Glass.eventFilter tr d (some obj) (some (QEvent.MouseButtonPress p))).events
        ++ (Glass.eventFilter tr
              (Glass.eventFilter tr d (some obj) (some (QEvent.MouseButtonPress p))).d
              (some obj2) (some (QEvent.MouseButtonRelease p))).events).filter
        Event.isKeyPressedOrReleased
      = [Event.keyPressed A L, Event.keyReleased A L]
    ∧ (Glass.eventFilter tr
          (Glass.eventFilter tr d (some obj) (some (QEvent.MouseButtonPress p))).d
          (some obj2) (some (QEvent.MouseButtonRelease p))).d.active_keys = [] := by
  have h1 : Logic.keyHit L.activeKeys L.activeKeyAreaGeometry p []
      Logic.FilterBehaviour.IgnoreIfInFilter = A := by
    rw [hkeys]
    exact keyHit_first pre post A _ p _ _ hgeo hpre hA (by simp [Logic.accepted])
  have h2 : Logic.keyHit L.activeKeys L.activeKeyAreaGeometry p [A]
      Logic.FilterBehaviour.AcceptIfInFilter = A := by
    rw [hkeys]
    exact keyHit_first pre post A _ p _ _ hgeo hpre hA (by simp [Logic.accepted])
  by_cases hp : Glass.panelAt L p = Panel.NumPanels
  · simp [Glass.eventFilter, Glass.handlePressReleaseEvent, hl, Glass.pressReleaseLoop,
      Glass.hitPos, htr, Glass.pressCase, Glass.releaseCase, Glass.releasePos, hpanel, hk, h1,
      h2, hvalid, hp, removeActiveKey, removeActiveKeyAt, List.filter,
      Event.isKeyPressedOrReleased]
  · simp [Glass.eventFilter, Glass.handlePressReleaseEvent, hl, Glass.pressReleaseLoop,
      Glass.hitPos, htr, Glass.pressCase, Glass.releaseCase, Glass.releasePos, hpanel, hk, h1,
      h2, hvalid, hp, removeActiveKey, removeActiveKeyAt, List.filter,
      Event.isKeyPressedOrReleased]

/-- C7 at the spec's scenario: key A with rectangle (0, 0, 20, 20), press and release at
(10, 10) on a freshly constructed Glass tracking the sample layout. -/
theorem C7_tap_presses_and_releases_witness :
    ((Glass.eventFilter Glass.idTranslate (Sample.glass [Sample.layout]) (some 0)
          (some (QEvent.MouseButtonPress { x := 10, y := 10 }))).events
        ++ (Glass.eventFilter Glass.idTranslate
              (Glass.eventFilter Glass.idTranslate (Sample.glass [Sample.layout]) (some 0)
                (some (QEvent.MouseButtonPress { x := 10, y := 10 }))).d
              (some 0) (some (QEvent.MouseButtonRelease { x := 10, y := 10 }))).events).filter
        Event.isKeyPressedOrReleased
      = [Event.keyPressed Sample.keyA Sample.layout, Event.keyReleased Sample.keyA Sample.layout]
    ∧ (Glass.eventFilter Glass.idTranslate
          (Glass.eventFilter Glass.idTranslate (Sample.glass [Sample.layout]) (some 0)
            (some (QEvent.MouseButtonPress { x := 10, y := 10 }))).d
          (some 0) (some (QEvent.MouseButtonRelease { x := 10, y := 10 }))).d.active_keys = [] :=
  C7_tap_presses_and_releases Glass.idTranslate (Sample.glass [Sample.layout]) 0 0
    Sample.layout Sample.keyA { x := 10, y := 10 } [] [Sample.keyB]
    (fun _ _ _ => rfl) rfl (by decide) rfl rfl (by decide) rfl (by decide) (by decide)

/-! ## The active-key list can hold a key twice -/

/-- C6 (the code at the failing input): on a freshly constructed Glass tracking the sample
layout, a pointer-down on key A at (10, 10), a second pointer-down on key B at (30, 10) and a
pointer-move back to (10, 10) after 1000 ms leave key A in the active-key list twice. -/
theorem C6_active_key_twice :
    (Glass.run Glass.idTranslate (Sample.glass [Sample.layout])
        [(0, QEvent.MouseButtonPress { x := 10, y := 10 }),
         (0, QEvent.MouseButtonPress { x := 30, y := 10 }),
         (0, QEvent.MouseMove { x := 10, y := 10 } 1000)]).1.active_keys
      = [Sample.keyA, Sample.keyA]
    ∧ ¬ (Glass.run Glass.idTranslate (Sample.glass [Sample.layout])
        [(0, QEvent.MouseButtonPress { x := 10, y := 10 }),
         (0, QEvent.MouseButtonPress { x := 30, y := 10 }),
         (0, QEvent.MouseMove { x := 10, y := 10 } 1000)]).1.active_keys.Nodup := by
  decide

/-! ## Theorems: Glass, one gesture per session -/

/-- Every state is in its own session. -/
theorem sameSession_refl (d : GlassPrivate) : Glass.sameSession d d :=
  ⟨rfl, rfl, rfl, rfl, rfl, rfl⟩

/-- Being in the same session is transitive. -/
theorem sameSession_trans {a b c : GlassPrivate} (h1 : Glass.sameSession a b)
    (h2 : Glass.sameSession b c) : Glass.sameSession a c := by
  unfold Glass.sameSession at h1 h2 ⊢
  refine ⟨h2.1.trans h1.1, h2.2.1.trans h1.2.1, h2.2.2.1.trans h1.2.2.1, ?_, ?_, ?_⟩
  · exact h2.2.2.2.1.trans h1.2.2.2.1
  · exact h2.2.2.2.2.1.trans h1.2.2.2.2.1
  · exact h2.2.2.2.2.2.trans h1.2.2.2.2.2

/-- A pointer-move handled after a gesture was triggered returns `false`, emits nothing and
changes nothing. -/
theorem move_ignored (tr : Translate) (d : GlassPrivate) (o : Nat) (qpos : QPoint)
    (elapsed : Int) (h : d.gesture_triggered = true) :
    Glass.eventFilter tr d (some o) (some (QEvent.MouseMove qpos elapsed))
      = { consumed := false, d := d, events := [] } := by
  simp [Glass.eventFilter, h]

/-- A pointer-up handled after a gesture was triggered returns `false` and emits nothing. -/
theorem release_ignored (tr : Translate) (d : GlassPrivate) (o : Nat) (qpos : QPoint)
    (h : d.gesture_triggered = true) :
    (Glass.eventFilter tr d (some o) (some (QEvent.MouseButtonRelease qpos))).events = [] := by
  simp [Glass.eventFilter, h]

/-- The key enter/exit part keeps the session data and the gesture flag. -/
theorem moveKeys_frame (layout : Layout) (rect : QRect) (pos last : QPoint)
    (d : GlassPrivate) (r : Glass.Handled)
    (h : Glass.moveKeys layout rect pos last d = some r) :
    Glass.sameSession d r.d ∧ r.d.gesture_triggered = d.gesture_triggered := by
  unfold Glass.moveKeys at h
  simp only at h
  split_ifs at h <;> simp only [Option.some.injEq] at h <;> subst h <;>
    exact ⟨⟨rfl, rfl, rfl, rfl, rfl, rfl⟩, rfl⟩

/-- The press case keeps the session data and the gesture flag and emits neither a gesture
event nor `keyReleased`. -/
theorem pressCase_spec (layout : Layout) (pos : QPoint) (d : GlassPrivate) (c : Bool) :
    Glass.sameSession d (Glass.pressCase layout pos d c).d
    ∧ (Glass.pressCase layout pos d c).d.gesture_triggered = d.gesture_triggered
    ∧ ∀ e ∈ (Glass.pressCase layout pos d c).events,
        e.isGesture = false ∧ e.isKeyReleased = false := by
  unfold Glass.pressCase
  simp only
  split_ifs <;> refine ⟨⟨rfl, rfl, rfl, rfl, rfl, rfl⟩, rfl, ?_⟩ <;> intro e he <;>
    simp at he <;> (try rcases he with he | he) <;> (try subst he) <;> exact ⟨rfl, rfl⟩

/-- The press loop keeps the session data and the gesture flag and emits neither a gesture
event nor `keyReleased`. -/
theorem pressLoop_spec (tr : Translate) (qpos : QPoint) (es : Option Surface) :
    ∀ (layouts : List Layout) (d : GlassPrivate) (c : Bool),
      Glass.sameSession d (Glass.pressReleaseLoop tr true qpos es layouts d c).d
      ∧ (Glass.pressReleaseLoop tr true qpos es layouts d c).d.gesture_triggered
          = d.gesture_triggered
      ∧ ∀ e ∈ (Glass.pressReleaseLoop tr true qpos es layouts d c).events,
          e.isGesture = false ∧ e.isKeyReleased = false := by
  intro layouts
  induction layouts with
  | nil =>
    intro d c
    exact ⟨sameSession_refl d, rfl, by simp [Glass.pressReleaseLoop]⟩
  | cons layout rest ih =>
    intro d c
    obtain ⟨h1, h2, h3⟩ := pressCase_spec layout (Glass.hitPos tr true qpos es layout d) d c
    by_cases hp : Glass.panelAt layout (Glass.hitPos tr true qpos es layout d) = Panel.NumPanels
    · obtain ⟨i1, i2, i3⟩ := ih (Glass.pressCase layout (Glass.hitPos tr true qpos es layout d) d c).d
        (Glass.pressCase layout (Glass.hitPos tr true qpos es layout d) d c).consumed
      simp only [Glass.pressReleaseLoop, hp, ne_eq, not_true_eq_false, if_false, if_true]
      refine ⟨sameSession_trans h1 i1, i2.trans h2, ?_⟩
      intro e he
      rcases List.mem_append.1 he with he | he
      · exact h3 e he
      · exact i3 e he
    · simp only [Glass.pressReleaseLoop, hp, ne_eq, not_false_eq_true, if_true]
      refine ⟨h1, h2, ?_⟩
      intro e he
      rcases List.mem_append.1 he with he | he
      · exact h3 e he
      · simp only [List.mem_singleton] at he
        subst he
        exact ⟨rfl, rfl⟩

/-- A pointer-down clears the gesture flag, records the press position, keeps the rest of the
session data and emits neither a gesture event nor `keyReleased`. -/
theorem press_spec (tr : Translate) (d : GlassPrivate) (o : Nat) (p : QPoint) :
    (Glass.eventFilter tr d (some o) (some (QEvent.MouseButtonPress p))).d.gesture_triggered
        = false
    ∧ Glass.sameSession { d with press_pos := p }
        (Glass.eventFilter tr d (some o) (some (QEvent.MouseButtonPress p))).d
    ∧ ∀ e ∈ (Glass.eventFilter tr d (some o) (some (QEvent.MouseButtonPress p))).events,
        e.isGesture = false ∧ e.isKeyReleased = false := by
  have h := pressLoop_spec tr p (Glass.eventSurface d o) d.layouts
    { d with mouse_captured := true, gesture_triggered := false, last_pos := p, press_pos := p }
    false
  have hev : Glass.eventFilter tr d (some o) (some (QEvent.MouseButtonPress p))
      = Glass.pressReleaseLoop tr true p (Glass.eventSurface d o) d.layouts
          { d with mouse_captured := true, gesture_triggered := false, last_pos := p,
                   press_pos := p } false := by
    simp [Glass.eventFilter, Glass.handlePressReleaseEvent]
  rw [hev]
  obtain ⟨h1, h2, h3⟩ := h
  exact ⟨h2, sameSession_trans ⟨rfl, rfl, rfl, rfl, rfl, rfl⟩ h1, h3⟩

/-- C11 (the code at the failing input): one tracked layout showing its extended panel with
offset (100, 0), identity surface translation. A move to (110, 10) and a release at (110, 10)
hit-test at the event position minus the offset, (10, 10), which is inside key A. A press at
(110, 10) hit-tests at the surface translation of the event position, (110, 10), outside the
key area: it emits nothing and no key becomes active. -/
theorem C11_press_skips_offset_translation :
    Glass.movePos Glass.idTranslate (Sample.glass [Sample.extended]) Sample.extended
        { x := 110, y := 10 } none = { x := 10, y := 10 }
    ∧ Glass.hitPos Glass.idTranslate false { x := 110, y := 10 } none Sample.extended
        (Sample.glass [Sample.extended]) = { x := 10, y := 10 }
    ∧ translatePosition { x := 110, y := 10 } Sample.extended.extendedPanelOffset
        = { x := 10, y := 10 }
    ∧ Glass.hitPos Glass.idTranslate true { x := 110, y := 10 } none Sample.extended
        (Sample.glass [Sample.extended]) = { x := 110, y := 10 }
    ∧ Logic.keyHit Sample.extended.activeKeys Sample.extended.activeKeyAreaGeometry
        { x := 10, y := 10 } [] Logic.FilterBehaviour.IgnoreIfInFilter = Sample.keyA
    ∧ (Glass.eventFilter Glass.idTranslate (Sample.glass [Sample.extended]) (some 0)
        (some (QEvent.MouseButtonPress { x := 110, y := 10 }))).events = []
    ∧ (Glass.eventFilter Glass.idTranslate (Sample.glass [Sample.extended]) (some 0)
        (some (QEvent.MouseButtonPress { x := 110, y := 10 }))).d.active_keys = []
    ∧ (Glass.eventFilter Glass.idTranslate
        { Sample.glass [Sample.extended] with active_keys := [Sample.keyA] } (some 0)
        (some (QEvent.MouseButtonRelease { x := 110, y := 10 }))).events
      = [Event.keyReleased Sample.keyA Sample.extended,
         Event.keyAreaReleased Panel.ExtendedPanel Sample.extended,
         Event.keyAreaReleased Panel.ExtendedPanel Sample.extended] := by
  decide

/-- The helper `removeActiveKey` removes the first occurrence of the key. -/
theorem removeActiveKeyAt_eq_erase (ks : List Key) (key : Key) :
    removeActiveKeyAt ks key = ks.erase key := by
  induction ks with
  | nil => rfl
  | cons k ks ih =>
    by_cases h : k = key
    · simp [removeActiveKeyAt, h]
    · simp [removeActiveKeyAt, h, List.erase_cons, ih]

/-- The events of the case run for the first layout open the events of the whole loop. -/
theorem loop_events_begin (tr : Translate) (press : Bool) (qpos : QPoint)
    (es : Option Surface) (layout : Layout) (rest : List Layout) (d : GlassPrivate)
    (c : Bool) :
    (if press then Glass.pressCase layout (Glass.hitPos tr press qpos es layout d) d c
      else Glass.releaseCase layout (Glass.hitPos tr press qpos es layout d) d c).events
      <+: (Glass.pressReleaseLoop tr press qpos es (layout :: rest) d c).events := by
  simp only [Glass.pressReleaseLoop]
  split_ifs <;> exact List.prefix_append _ _

/-- C12: the release case run for a layout in any state `s` at the release position `pos`,
with `key` the result of hit-testing with the policy "accept if in filter" against the active
keys.
`keyReleased(k)` is emitted if and only if `k` is that key and it is valid, and then the first
occurrence of the key is removed from the active keys. When the key is not valid,
`wordCandidateReleased(c)` is emitted if and only if `c` is the word-candidate hit, valid and
equal to the captured candidate, and then the captured candidate is reset to the invalid one.
On a pointer-up with no gesture triggered the events of this case, run in the state the
handler has reached, open the handler's events for the first tracked layout. -/
theorem C12_release_case (tr : Translate) (d : GlassPrivate) (obj : Nat) (qpos : QPoint)
    (layout : Layout) (rest : List Layout) (s : GlassPrivate) (pos : QPoint) (c : Bool)
    (hl : d.layouts = layout :: rest) (hg : d.gesture_triggered = false) :
    (∀ k l, Event.keyReleased k l ∈ (Glass.releaseCase layout pos s c).events
        ↔ (l = layout
            ∧ k = Logic.keyHit layout.activeKeys layout.activeKeyAreaGeometry pos
                s.active_keys Logic.FilterBehaviour.AcceptIfInFilter
            ∧ k.valid = true))
    ∧ ((Logic.keyHit layout.activeKeys layout.activeKeyAreaGeometry pos s.active_keys
          Logic.FilterBehaviour.AcceptIfInFilter).valid = true →
        (Glass.releaseCase layout pos s c).d.active_keys
            = s.active_keys.erase
                (Logic.keyHit layout.activeKeys layout.activeKeyAreaGeometry pos s.active_keys
                  Logic.FilterBehaviour.AcceptIfInFilter)
          ∧ ∀ w l, Event.wordCandidateReleased w l ∉ (Glass.releaseCase layout pos s c).events)
    ∧ ((Logic.keyHit layout.activeKeys layout.activeKeyAreaGeometry pos s.active_keys
          Logic.FilterBehaviour.AcceptIfInFilter).valid = false →
        (∀ w l, Event.wordCandidateReleased w l ∈ (Glass.releaseCase layout pos s c).events
            ↔ (l = layout
                ∧ w = Logic.wordCandidateHit layout.wordRibbonCandidates
                    layout.wordRibbonGeometry pos
                ∧ w.valid = true ∧ w = s.active_candidate))
          ∧ (Glass.releaseCase layout pos s c).d.active_keys = s.active_keys
          ∧ (((Logic.wordCandidateHit layout.wordRibbonCandidates layout.wordRibbonGeometry
                  pos).valid = true
                ∧ Logic.wordCandidateHit layout.wordRibbonCandidates layout.wordRibbonGeometry
                    pos = s.active_candidate) →
              (Glass.releaseCase layout pos s c).d.active_candidate = WordCandidate.invalid))
    ∧ (Glass.releaseCase layout
          (Glass.hitPos tr false qpos (Glass.eventSurface d obj) layout d)
          { d with mouse_captured := false, long_press_timer := false,
                   last_pos := qpos, press_pos := qpos } false).events
        <+: (Glass.eventFilter tr d (some obj) (some (QEvent.MouseButtonRelease qpos))).events := by
  refine ⟨?_, ?_, ?_, ?_⟩
  · intro k l
    unfold Glass.releaseCase
    simp only
    split_ifs with h1 h2
    · simp only [List.mem_cons, Event.keyReleased.injEq, List.mem_singleton, reduceCtorEq,
        or_false, List.not_mem_nil]
      constructor
      · rintro ⟨rfl, rfl⟩
        exact ⟨rfl, rfl, h1⟩
      · rintro ⟨rfl, rfl, _⟩
        exact ⟨rfl, rfl⟩
    · simp only [List.mem_singleton, reduceCtorEq, false_iff]
      rintro ⟨_, rfl, hv⟩
      exact h1 hv
    · simp only [List.not_mem_nil, false_iff]
      rintro ⟨_, rfl, hv⟩
      exact h1 hv
  · intro hv
    unfold Glass.releaseCase
    simp only [hv, if_true, removeActiveKey, Option.getD_some, removeActiveKeyAt_eq_erase]
    refine ⟨trivial, ?_⟩
    intro w l
    simp
  · intro hv
    unfold Glass.releaseCase
    simp only [hv, Bool.false_eq_true, if_false]
    refine ⟨?_, ?_, ?_⟩
    · intro w l
      split_ifs with h2
      · simp only [Bool.and_eq_true, decide_eq_true_eq] at h2
        simp only [List.mem_singleton, Event.wordCandidateReleased.injEq]
        constructor
        · rintro ⟨rfl, rfl⟩
          exact ⟨rfl, rfl, h2.1, h2.2⟩
        · rintro ⟨rfl, rfl, _, _⟩
          exact ⟨rfl, rfl⟩
      · simp only [Bool.and_eq_true, decide_eq_true_eq] at h2
        simp only [List.not_mem_nil, false_iff]
        rintro ⟨_, rfl, hw1, hw2⟩
        exact h2 ⟨hw1, hw2⟩
    · split_ifs <;> rfl
    · intro hw
      have : ((Logic.wordCandidateHit layout.wordRibbonCandidates layout.wordRibbonGeometry
          pos).valid && decide (Logic.wordCandidateHit layout.wordRibbonCandidates
            layout.wordRibbonGeometry pos = s.active_candidate)) = true := by
        simp [hw.1, hw.2.symm]
      rw [if_pos this]
  · have hev : Glass.eventFilter tr d (some obj) (some (QEvent.MouseButtonRelease qpos))
        = Glass.pressReleaseLoop tr false qpos (Glass.eventSurface d obj) (layout :: rest)
            { d with mouse_captured := false, long_press_timer := false,
                     last_pos := qpos, press_pos := qpos } false := by
      simp [Glass.eventFilter, hg, Glass.handlePressReleaseEvent, hl]
    rw [hev]
    exact loop_events_begin tr false qpos (Glass.eventSurface d obj) layout rest
      { d with mouse_captured := false, long_press_timer := false,
               last_pos := qpos, press_pos := qpos } false

/-- The press case leaves the last position alone. -/
theorem pressCase_last_pos (layout : Layout) (pos : QPoint) (d : GlassPrivate) (c : Bool) :
    (Glass.pressCase layout pos d c).d.last_pos = d.last_pos := by
  unfold Glass.pressCase
  simp only
  split_ifs <;> rfl

/-- The press loop leaves the last position alone. -/
theorem pressLoop_last_pos (tr : Translate) (qpos : QPoint) (es : Option Surface) :
    ∀ (layouts : List Layout) (d : GlassPrivate) (c : Bool),
      (Glass.pressReleaseLoop tr true qpos es layouts d c).d.last_pos = d.last_pos := by
  intro layouts
  induction layouts with
  | nil => intro d c; rfl
  | cons layout rest ih =>
    intro d c
    have h1 := pressCase_last_pos layout (Glass.hitPos tr true qpos es layout d) d c
    by_cases hp : Glass.panelAt layout (Glass.hitPos tr true qpos es layout d) = Panel.NumPanels
    · simp only [Glass.pressReleaseLoop, hp, ne_eq, not_true_eq_false, if_false, if_true]
      rw [ih, h1]
    · simp only [Glass.pressReleaseLoop, hp, ne_eq, not_false_eq_true, if_true]
      exact h1

/-- C13: a pointer-down at `p` resets `gesture_triggered` and sets the press and last positions
to `p`. The press case run for a layout in any state `s` at position `pos`, with `key` the
result of hit-testing that excludes the active keys: when `key` is valid it is appended to the
active keys, `keyPressed(key)` is emitted (followed by `keyAreaPressed`), and the long-press
timer is started with the layout recorded when `key` has extended keys, while timer and
recorded layout are untouched when it has none; when `key` is not valid and the word-candidate
hit is valid, the candidate is stored, `wordCandidatePressed` is emitted and the active keys
are unchanged. The events of this case, run in the state the handler has reached, open the
handler's events for the first tracked layout. -/
theorem C13_press_case (tr : Translate) (d : GlassPrivate) (obj : Nat) (p : QPoint)
    (layout : Layout) (rest : List Layout) (s : GlassPrivate) (pos : QPoint) (c : Bool)
    (hl : d.layouts = layout :: rest) :
    ((Glass.eventFilter tr d (some obj) (some (QEvent.MouseButtonPress p))).d.gesture_triggered
        = false
      ∧ (Glass.eventFilter tr d (some obj) (some (QEvent.MouseButtonPress p))).d.press_pos = p
      ∧ (Glass.eventFilter tr d (some obj) (some (QEvent.MouseButtonPress p))).d.last_pos = p)
    ∧ ((Logic.keyHit layout.activeKeys layout.activeKeyAreaGeometry pos s.active_keys
          Logic.FilterBehaviour.IgnoreIfInFilter).valid = true →
        (Glass.pressCase layout pos s c).d.active_keys
            = s.active_keys ++ [Logic.keyHit layout.activeKeys layout.activeKeyAreaGeometry pos
                s.active_keys Logic.FilterBehaviour.IgnoreIfInFilter]
          ∧ (Glass.pressCase layout pos s c).events
            = [Event.keyPressed (Logic.keyHit layout.activeKeys layout.activeKeyAreaGeometry pos
                  s.active_keys Logic.FilterBehaviour.IgnoreIfInFilter) layout,
               Event.keyAreaPressed layout.activePanel layout]
          ∧ ((Logic.keyHit layout.activeKeys layout.activeKeyAreaGeometry pos s.active_keys
                Logic.FilterBehaviour.IgnoreIfInFilter).hasExtendedKeys = true →
              (Glass.pressCase layout pos s c).d.long_press_timer = true
                ∧ (Glass.pressCase layout pos s c).d.long_press_layout = some layout)
          ∧ ((Logic.keyHit layout.activeKeys layout.activeKeyAreaGeometry pos s.active_keys
                Logic.FilterBehaviour.IgnoreIfInFilter).hasExtendedKeys = false →
              (Glass.pressCase layout pos s c).d.long_press_timer = s.long_press_timer
                ∧ (Glass.pressCase layout pos s c).d.long_press_layout = s.long_press_layout))
    ∧ ((Logic.keyHit layout.activeKeys layout.activeKeyAreaGeometry pos s.active_keys
          Logic.FilterBehaviour.IgnoreIfInFilter).valid = false →
        (Logic.wordCandidateHit layout.wordRibbonCandidates layout.wordRibbonGeometry
          pos).valid = true →
        (Glass.pressCase layout pos s c).d.active_candidate
            = Logic.wordCandidateHit layout.wordRibbonCandidates layout.wordRibbonGeometry pos
          ∧ (Glass.pressCase layout pos s c).events
            = [Event.wordCandidatePressed
                (Logic.wordCandidateHit layout.wordRibbonCandidates layout.wordRibbonGeometry
                  pos) layout]
          ∧ (Glass.pressCase layout pos s c).d.active_keys = s.active_keys)
    ∧ (Glass.pressCase layout
          (Glass.hitPos tr true p (Glass.eventSurface d obj) layout d)
          { d with mouse_captured := true, gesture_triggered := false,
                   last_pos := p, press_pos := p } false).events
        <+: (Glass.eventFilter tr d (some obj) (some (QEvent.MouseButtonPress p))).events := by
  have hev : Glass.eventFilter tr d (some obj) (some (QEvent.MouseButtonPress p))
      = Glass.pressReleaseLoop tr true p (Glass.eventSurface d obj) (layout :: rest)
          { d with mouse_captured := true, gesture_triggered := false,
                   last_pos := p, press_pos := p } false := by
    simp [Glass.eventFilter, Glass.handlePressReleaseEvent, hl]
  refine ⟨?_, ?_, ?_, ?_⟩
  · obtain ⟨q1, q2, _⟩ := press_spec tr d obj p
    refine ⟨q1, q2.2.1, ?_⟩
    rw [hev, pressLoop_last_pos]
  · intro hv
    unfold Glass.pressCase
    simp only [hv, if_true]
    refine ⟨trivial, trivial, ?_, ?_⟩
    · intro hx
      simp [hx]
    · intro hx
      simp [hx]
  · intro hv hw
    unfold Glass.pressCase
    simp only [hv, hw, Bool.false_eq_true, if_false, if_true]
    exact ⟨trivial, trivial, trivial⟩
  · rw [hev]
    exact loop_events_begin tr true p (Glass.eventSurface d obj) layout rest
      { d with mouse_captured := true, gesture_triggered := false,
               last_pos := p, press_pos := p } false

/-- C12 at a concrete input: with key A active on the sample layout, the release case at
(10, 10) removes A from the active keys. -/
theorem C12_release_case_witness :
    (Glass.releaseCase Sample.layout { x := 10, y := 10 }
        { Sample.glass [Sample.layout] with active_keys := [Sample.keyA] } false).d.active_keys
      = [] :=
  ((C12_release_case Glass.idTranslate
      { Sample.glass [Sample.layout] with active_keys := [Sample.keyA] } 0 { x := 10, y := 10 }
      Sample.layout []
      { Sample.glass [Sample.layout] with active_keys := [Sample.keyA] } { x := 10, y := 10 }
      false rfl rfl).2.1 (by decide)).1.trans (by decide)

/-- C13 at a concrete input: on the layout whose key C has extended keys, the press case at
(10, 10) starts the long-press timer and records the layout. -/
theorem C13_press_case_witness :
    (Glass.pressCase Sample.ribbon { x := 10, y := 10 } (Sample.glass [Sample.ribbon])
        false).d.long_press_timer = true
    ∧ (Glass.pressCase Sample.ribbon { x := 10, y := 10 } (Sample.glass [Sample.ribbon])
        false).d.long_press_layout = some Sample.ribbon :=
  ((C13_press_case Glass.idTranslate (Sample.glass [Sample.ribbon]) 0 { x := 10, y := 10 }
      Sample.ribbon [] (Sample.glass [Sample.ribbon]) { x := 10, y := 10 } false rfl).2.1
    (by decide)).2.2.1 (by decide)

/-! ## Theorems: Glass, after a long press and after a second press -/

/-- The release case with no active key keeps the active keys empty and emits no
`keyReleased`. -/
theorem releaseCase_no_keys (layout : Layout) (pos : QPoint) (d : GlassPrivate) (c : Bool)
    (hk : d.active_keys = []) :
    (Glass.releaseCase layout pos d c).d.active_keys = []
    ∧ ∀ e ∈ (Glass.releaseCase layout pos d c).events, e.isKeyReleased = false := by
  unfold Glass.releaseCase
  have h1 : Key.invalid.valid = false := rfl
  simp only [hk, keyHit_accept_nil, h1, Bool.false_eq_true, if_false]
  split_ifs
  · refine ⟨rfl, ?_⟩
    intro e he
    simp only [List.mem_singleton] at he
    subst he
    rfl
  · exact ⟨hk, by simp⟩

/-- The release loop with no active key emits no `keyReleased`. -/
theorem releaseLoop_no_keys (tr : Translate) (qpos : QPoint) (es : Option Surface) :
    ∀ (layouts : List Layout) (d : GlassPrivate) (c : Bool), d.active_keys = [] →
      ∀ e ∈ (Glass.pressReleaseLoop tr false qpos es layouts d c).events,
        e.isKeyReleased = false := by
  intro layouts
  induction layouts with
  | nil => intro d c _ e he; simp [Glass.pressReleaseLoop] at he
  | cons layout rest ih =>
    intro d c hk e he
    obtain ⟨h1, h2⟩ := releaseCase_no_keys layout (Glass.hitPos tr false qpos es layout d) d c hk
    by_cases hp : Glass.panelAt layout (Glass.hitPos tr false qpos es layout d) = Panel.NumPanels
    · simp only [Glass.pressReleaseLoop, hp, ne_eq, not_true_eq_false, if_false,
        Bool.false_eq_true] at he
      rcases List.mem_append.1 he with he | he
      · exact h2 e he
      · exact ih _ _ h1 e he
    · simp only [Glass.pressReleaseLoop, hp, ne_eq, not_false_eq_true, if_true,
        Bool.false_eq_true, if_false] at he
      rcases List.mem_append.1 he with he | he
      · exact h2 e he
      · simp only [List.mem_singleton] at he
        subst he
        rfl

/-- A pointer-up handled with no active key emits no `keyReleased`. -/
theorem release_no_keys (tr : Translate) (d : GlassPrivate) (o : Nat) (qpos : QPoint)
    (hk : d.active_keys = []) :
    ∀ e ∈ (Glass.eventFilter tr d (some o) (some (QEvent.MouseButtonRelease qpos))).events,
      e.isKeyReleased = false := by
  intro e he
  by_cases hg : d.gesture_triggered = true
  · rw [release_ignored tr d o qpos hg] at he
    simp at he
  · have hev : Glass.eventFilter tr d (some o) (some (QEvent.MouseButtonRelease qpos))
        = Glass.pressReleaseLoop tr false qpos (Glass.eventSurface d o) d.layouts
            { d with mouse_captured := false, long_press_timer := false,
                     last_pos := qpos, press_pos := qpos } false := by
      simp [Glass.eventFilter, hg, Glass.handlePressReleaseEvent]
    rw [hev] at he
    exact releaseLoop_no_keys tr qpos _ d.layouts
      { d with mouse_captured := false, long_press_timer := false,
               last_pos := qpos, press_pos := qpos } false hk e he

/-- When the long-press slot emits `keyLongPressed`, it has cleared the active keys. -/
theorem longPress_clears (d : GlassPrivate) (K : Key) (L : Layout)
    (h : Event.keyLongPressed K L ∈ (Glass.onLongPressTriggered d).2) :
    (Glass.onLongPressTriggered d).1.active_keys = [] := by
  unfold Glass.onLongPressTriggered at h ⊢
  simp only at h ⊢
  split_ifs at h ⊢ with h1
  · simp at h
  · cases hl : d.long_press_layout with
    | none => simp [hl] at h
    | some layout =>
      cases hk : d.active_keys.getLast? with
      | none => simp [hl, hk] at h
      | some last => simp [hl, hk]

/-- C14: if the long-press timer fires and emits `keyLongPressed(K)`, the pointer-up that
directly follows emits no `keyReleased` for any key, for every release position and whatever
the tracked layouts have become in between. -/
theorem C14_no_release_after_long_press (tr : Translate) (d : GlassPrivate) (K : Key)
    (L : Layout) (layouts : List Layout) (obj : Nat) (q : QPoint)
    (h : Event.keyLongPressed K L ∈ (Glass.onLongPressTriggered d).2) :
    ∀ e ∈ (Glass.eventFilter tr
        { (Glass.onLongPressTriggered d).1 with layouts := layouts } (some obj)
        (some (QEvent.MouseButtonRelease q))).events, e.isKeyReleased = false :=
  release_no_keys tr { (Glass.onLongPressTriggered d).1 with layouts := layouts } obj q
    (longPress_clears d K L h)

/-- C14 at a concrete input: key A active on the sample layout, the timer fires, and the
release at (10, 10), inside A, emits no `keyReleased`. -/
theorem C14_no_release_after_long_press_witness :
    (Glass.eventFilter Glass.idTranslate
        { (Glass.onLongPressTriggered
            { Sample.glass [Sample.layout] with
              active_keys := [Sample.keyA], long_press_layout := some Sample.layout }).1 with
          layouts := [Sample.layout] } (some 0)
        (some (QEvent.MouseButtonRelease { x := 10, y := 10 }))).events.filter
        Event.isKeyReleased = [] :=
  List.filter_eq_nil_iff.2 (fun e he hr =>
    Bool.noConfusion (((C14_no_release_after_long_press Glass.idTranslate
      { Sample.glass [Sample.layout] with
        active_keys := [Sample.keyA], long_press_layout := some Sample.layout }
      Sample.keyA Sample.layout [Sample.layout] 0 { x := 10, y := 10 } (by decide)) e he).symm.trans
      hr))

/-- A valid key returned by hit-testing that excludes the filter is not in the filter. -/
theorem keyHit_ignore_not_mem (keys : List Key) (geometry : QRect) (pos : QPoint)
    (filtered : List Key)
    (hv : (Logic.keyHit keys geometry pos filtered
      Logic.FilterBehaviour.IgnoreIfInFilter).valid = true) :
    Logic.keyHit keys geometry pos filtered Logic.FilterBehaviour.IgnoreIfInFilter
      ∉ filtered := by
  unfold Logic.keyHit at hv ⊢
  split_ifs at hv ⊢ with hgeo
  · cases hf : keys.find? (fun k => k.rect.contains pos &&
        Logic.accepted filtered Logic.FilterBehaviour.IgnoreIfInFilter k) with
    | none =>
      rw [hf] at hv
      exact absurd hv (by decide)
    | some k =>
      have hp := List.find?_some hf
      simp only [Logic.accepted, Bool.and_eq_true, Bool.not_eq_true'] at hp
      intro hm
      have h2 := hp.2
      simp [hm] at h2
  · exact absurd hv (by decide)

/-- The press case and the count of a key in the active keys: it is unchanged, or the key was
not active and is now there once. -/
theorem pressCase_count (layout : Layout) (pos : QPoint) (d : GlassPrivate) (c : Bool)
    (k : Key) :
    (Glass.pressCase layout pos d c).d.active_keys.count k = d.active_keys.count k
    ∨ (k ∉ d.active_keys ∧ (Glass.pressCase layout pos d c).d.active_keys.count k = 1) := by
  by_cases hv : (Logic.keyHit layout.activeKeys layout.activeKeyAreaGeometry pos d.active_keys
      Logic.FilterBehaviour.IgnoreIfInFilter).valid = true
  · have hn := keyHit_ignore_not_mem _ _ _ _ hv
    have hd : (Glass.pressCase layout pos d c).d.active_keys
        = d.active_keys ++ [Logic.keyHit layout.activeKeys layout.activeKeyAreaGeometry pos
            d.active_keys Logic.FilterBehaviour.IgnoreIfInFilter] := by
      unfold Glass.pressCase
      simp only [hv, if_true]
    rw [hd, List.count_append]
    by_cases hk : Logic.keyHit layout.activeKeys layout.activeKeyAreaGeometry pos
        d.active_keys Logic.FilterBehaviour.IgnoreIfInFilter = k
    · right
      rw [hk] at hn ⊢
      exact ⟨hn, by simp [List.count_eq_zero_of_not_mem hn]⟩
    · left
      simp [List.count_singleton, hk]
  · left
    have hd : (Glass.pressCase layout pos d c).d.active_keys = d.active_keys := by
      unfold Glass.pressCase
      simp only [hv, Bool.false_eq_true, if_false]
      split_ifs <;> rfl
    rw [hd]

/-- The press loop and the count of a key in the active keys: it is unchanged, or the key was
not active and is now there once. -/
theorem pressLoop_count (tr : Translate) (qpos : QPoint) (es : Option Surface) (k : Key) :
    ∀ (layouts : List Layout) (d : GlassPrivate) (c : Bool),
      (Glass.pressReleaseLoop tr true qpos es layouts d c).d.active_keys.count k
          = d.active_keys.count k
      ∨ (k ∉ d.active_keys
          ∧ (Glass.pressReleaseLoop tr true qpos es layouts d c).d.active_keys.count k = 1) := by
  intro layouts
  induction layouts with
  | nil => intro d c; exact Or.inl rfl
  | cons layout rest ih =>
    intro d c
    have h1 := pressCase_count layout (Glass.hitPos tr true qpos es layout d) d c k
    by_cases hp : Glass.panelAt layout (Glass.hitPos tr true qpos es layout d) = Panel.NumPanels
    · have h2 := ih (Glass.pressCase layout (Glass.hitPos tr true qpos es layout d) d c).d
        (Glass.pressCase layout (Glass.hitPos tr true qpos es layout d) d c).consumed
      simp only [Glass.pressReleaseLoop, hp, ne_eq, not_true_eq_false, if_false, if_true]
      rcases h1 with h1 | ⟨n1, h1⟩
      · rcases h2 with h2 | ⟨n2, h2⟩
        · exact Or.inl (h2.trans h1)
        · right
          have h0 : d.active_keys.count k = 0 := by
            rw [← h1]
            exact List.count_eq_zero_of_not_mem n2
          exact ⟨fun hm => absurd h0 (Nat.pos_iff_ne_zero.1 (List.count_pos_iff.2 hm)), h2⟩
      · rcases h2 with h2 | ⟨n2, h2⟩
        · exact Or.inr ⟨n1, h2.trans h1⟩
        · exact Or.inr ⟨n1, h2⟩
    · simp only [Glass.pressReleaseLoop, hp, ne_eq, not_false_eq_true, if_true]
      exact h1

/-- A pointer-down and the count of a key in the active keys: it is unchanged, or the key was
not active and is now there once. -/
theorem press_count (tr : Translate) (d : GlassPrivate) (o : Nat) (p : QPoint) (k : Key) :
    (Glass.eventFilter tr d (some o) (some (QEvent.MouseButtonPress p))).d.active_keys.count k
        = d.active_keys.count k
    ∨ (k ∉ d.active_keys
        ∧ (Glass.eventFilter tr d (some o)
            (some (QEvent.MouseButtonPress p))).d.active_keys.count k = 1) := by
  have hev : Glass.eventFilter tr d (some o) (some (QEvent.MouseButtonPress p))
      = Glass.pressReleaseLoop tr true p (Glass.eventSurface d o) d.layouts
          { d with mouse_captured := true, gesture_triggered := false, last_pos := p,
                   press_pos := p } false := by
    simp [Glass.eventFilter, Glass.handlePressReleaseEvent]
  rw [hev]
  exact pressLoop_count tr p _ k d.layouts
    { d with mouse_captured := true, gesture_triggered := false, last_pos := p,
             press_pos := p } false

/-- A pointer-down that hits a valid key on the first tracked layout leaves that key in the
active keys exactly once. -/
theorem press_hit_once (tr : Translate) (d : GlassPrivate) (o : Nat) (p : QPoint)
    (layout : Layout) (rest : List Layout) (hl : d.layouts = layout :: rest)
    (hv : (Logic.keyHit layout.activeKeys layout.activeKeyAreaGeometry
        (Glass.hitPos tr true p (Glass.eventSurface d o) layout d) d.active_keys
        Logic.FilterBehaviour.IgnoreIfInFilter).valid = true) :
    (Glass.eventFilter tr d (some o) (some (QEvent.MouseButtonPress p))).d.active_keys.count
      (Logic.keyHit layout.activeKeys layout.activeKeyAreaGeometry
        (Glass.hitPos tr true p (Glass.eventSurface d o) layout d) d.active_keys
        Logic.FilterBehaviour.IgnoreIfInFilter) = 1 := by
  have hn := keyHit_ignore_not_mem _ _ _ _ hv
  have hev : Glass.eventFilter tr d (some o) (some (QEvent.MouseButtonPress p))
      = Glass.pressReleaseLoop tr true p (Glass.eventSurface d o) (layout :: rest)
          { d with mouse_captured := true, gesture_triggered := false, last_pos := p,
                   press_pos := p } false := by
    simp [Glass.eventFilter, Glass.handlePressReleaseEvent, hl]
  have hpos : Glass.hitPos tr true p (Glass.eventSurface d o) layout
      { d with mouse_captured := true, gesture_triggered := false, last_pos := p,
               press_pos := p }
      = Glass.hitPos tr true p (Glass.eventSurface d o) layout d := rfl
  have hc : (Glass.pressCase layout
      (Glass.hitPos tr true p (Glass.eventSurface d o) layout d)
      { d with mouse_captured := true, gesture_triggered := false, last_pos := p,
               press_pos := p } false).d.active_keys.count
      (Logic.keyHit layout.activeKeys layout.activeKeyAreaGeometry
        (Glass.hitPos tr true p (Glass.eventSurface d o) layout d) d.active_keys
        Logic.FilterBehaviour.IgnoreIfInFilter) = 1 := by
    unfold Glass.pressCase
    simp only [hv, if_true, List.count_append, List.count_eq_zero_of_not_mem hn]
    simp
  rw [hev]
  by_cases hp : Glass.panelAt layout
      (Glass.hitPos tr true p (Glass.eventSurface d o) layout d) = Panel.NumPanels
  · simp only [Glass.pressReleaseLoop, hpos, hp, ne_eq, not_true_eq_false, if_false, if_true]
    rcases pressLoop_count tr p (Glass.eventSurface d o)
        (Logic.keyHit layout.activeKeys layout.activeKeyAreaGeometry
          (Glass.hitPos tr true p (Glass.eventSurface d o) layout d) d.active_keys
          Logic.FilterBehaviour.IgnoreIfInFilter) rest _ _ with h | ⟨n, _⟩
    · exact h.trans hc
    · exact absurd (List.count_pos_iff.1 (by rw [hc]; exact Nat.one_pos)) n
  · simp only [Glass.pressReleaseLoop, hpos, hp, ne_eq, not_false_eq_true, if_true]
    exact hc

/-- C15: two consecutive pointer-downs at `p`, with no other event between them. Every key
that is active after the first press occurs in the active keys as often after the second press
as after the first; a key that was not active before occurs at most once after each press; and
the valid key that the first press hits on the first tracked layout occurs exactly once after
the first press and exactly once after the second. -/
theorem C15_second_press_adds_no_copy (tr : Translate) (d : GlassPrivate) (o o2 : Nat)
    (p : QPoint) (layout : Layout) (rest : List Layout) (k : Key)
    (hl : d.layouts = layout :: rest) :
    (k ∈ (Glass.eventFilter tr d (some o) (some (QEvent.MouseButtonPress p))).d.active_keys →
      (Glass.eventFilter tr
          (Glass.eventFilter tr d (some o) (some (QEvent.MouseButtonPress p))).d (some o2)
          (some (QEvent.MouseButtonPress p))).d.active_keys.count k
        = (Glass.eventFilter tr d (some o)
            (some (QEvent.MouseButtonPress p))).d.active_keys.count k)
    ∧ (k ∉ d.active_keys →
      (Glass.eventFilter tr d (some o) (some (QEvent.MouseButtonPress p))).d.active_keys.count k
          ≤ 1
        ∧ (Glass.eventFilter tr
            (Glass.eventFilter tr d (some o) (some (QEvent.MouseButtonPress p))).d (some o2)
            (some (QEvent.MouseButtonPress p))).d.active_keys.count k ≤ 1)
    ∧ ((Logic.keyHit layout.activeKeys layout.activeKeyAreaGeometry
          (Glass.hitPos tr true p (Glass.eventSurface d o) layout d) d.active_keys
          Logic.FilterBehaviour.IgnoreIfInFilter).valid = true →
      (Glass.eventFilter tr d (some o) (some (QEvent.MouseButtonPress p))).d.active_keys.count
          (Logic.keyHit layout.activeKeys layout.activeKeyAreaGeometry
            (Glass.hitPos tr true p (Glass.eventSurface d o) layout d) d.active_keys
            Logic.FilterBehaviour.IgnoreIfInFilter) = 1
        ∧ (Glass.eventFilter tr
            (Glass.eventFilter tr d (some o) (some (QEvent.MouseButtonPress p))).d (some o2)
            (some (QEvent.MouseButtonPress p))).d.active_keys.count
          (Logic.keyHit layout.activeKeys layout.activeKeyAreaGeometry
            (Glass.hitPos tr true p (Glass.eventSurface d o) layout d) d.active_keys
            Logic.FilterBehaviour.IgnoreIfInFilter) = 1) := by
  have same : ∀ x, x ∈ (Glass.eventFilter tr d (some o)
        (some (QEvent.MouseButtonPress p))).d.active_keys →
      (Glass.eventFilter tr
          (Glass.eventFilter tr d (some o) (some (QEvent.MouseButtonPress p))).d (some o2)
          (some (QEvent.MouseButtonPress p))).d.active_keys.count x
        = (Glass.eventFilter tr d (some o)
            (some (QEvent.MouseButtonPress p))).d.active_keys.count x := by
    intro x hx
    rcases press_count tr (Glass.eventFilter tr d (some o)
        (some (QEvent.MouseButtonPress p))).d o2 p x with h | ⟨n, _⟩
    · exact h
    · exact absurd hx n
  refine ⟨same k, ?_, ?_⟩
  · intro hk
    have h0 : d.active_keys.count k = 0 := List.count_eq_zero_of_not_mem hk
    have h1 : (Glass.eventFilter tr d (some o)
        (some (QEvent.MouseButtonPress p))).d.active_keys.count k ≤ 1 := by
      rcases press_count tr d o p k with h | ⟨_, h⟩
      · rw [h, h0]
        exact Nat.zero_le _
      · exact le_of_eq h
    refine ⟨h1, ?_⟩
    rcases press_count tr (Glass.eventFilter tr d (some o)
        (some (QEvent.MouseButtonPress p))).d o2 p k with h | ⟨_, h⟩
    · rw [h]
      exact h1
    · exact le_of_eq h
  · intro hv
    have h1 := press_hit_once tr d o p layout rest hl hv
    refine ⟨h1, ?_⟩
    rw [same _ (List.count_pos_iff.1 (by rw [h1]; exact Nat.one_pos))]
    exact h1

/-- C15 at a concrete input: two presses at (10, 10) on the sample layout leave key A in the
active keys once. -/
theorem C15_second_press_adds_no_copy_witness :
    (Glass.eventFilter Glass.idTranslate
        (Glass.eventFilter Glass.idTranslate (Sample.glass [Sample.layout]) (some 0)
          (some (QEvent.MouseButtonPress { x := 10, y := 10 }))).d (some 0)
        (some (QEvent.MouseButtonPress { x := 10, y := 10 }))).d.active_keys.count Sample.keyA
      = 1 :=
  ((C15_second_press_adds_no_copy Glass.idTranslate (Sample.glass [Sample.layout]) 0 0
    { x := 10, y := 10 } Sample.layout [] Sample.keyA rfl).2.2 (by decide)).2

/-! ## Theorems: entry actions, late moves, surfaces, no layouts -/

/-- C16: the initial state of the machine is NoShift (and `start()` enters it, running
`switchLayoutToLower`); a delivered signal that triggers a transition runs exactly one slot:
`switchLayoutToLower` when the target is NoShift and `switchLayoutToUpper` when the target is
Shift, LatchedShift or CapsLock; the slots connected to each state's `entered()` are exactly
that one slot. -/
theorem C16_entry_actions :
    LayoutUpdater.init.initialState = some QState.no_shift
    ∧ LayoutUpdater.started.configuration = some QState.no_shift
    ∧ LayoutUpdater.init.start.2 = [Slot.switchLayoutToLower]
    ∧ (∀ s sig, ((LayoutUpdater.inState s).deliver sig).2
        = match LayoutUpdater.init.findTransition s sig with
          | none => []
          | some t =>
            if t.2.2 = QState.no_shift then [Slot.switchLayoutToLower]
            else [Slot.switchLayoutToUpper])
    ∧ (∀ s, LayoutUpdater.init.enteredSlots s
        = if s = QState.no_shift then [Slot.switchLayoutToLower]
          else [Slot.switchLayoutToUpper]) := by
  refine ⟨by decide, by decide, by decide, ?_, ?_⟩
  · intro s sig
    cases s <;> cases sig <;> decide
  · intro s
    cases s <;> decide

/-- Outside the gesture window the gesture test yields nothing. -/
theorem gesture_late (layout : Layout) (rect : QRect) (pos press : QPoint) (elapsed : Int)
    (h : 250 ≤ elapsed) : Glass.gesture layout rect pos press elapsed = none := by
  unfold Glass.gesture
  rw [if_neg (not_lt.2 h)]

/-- The move loop outside the gesture window, entered with no gesture triggered, leaves the
flag clear and emits no gesture event. -/
theorem moveLoop_late (tr : Translate) (qpos : QPoint) (elapsed : Int) (es : Option Surface)
    (h : 250 ≤ elapsed) :
    ∀ (layouts : List Layout) (d : GlassPrivate), d.gesture_triggered = false →
      (Glass.moveLoop tr qpos elapsed es layouts d).d.gesture_triggered = false
      ∧ ∀ e ∈ (Glass.moveLoop tr qpos elapsed es layouts d).events, e.isGesture = false := by
  intro layouts
  induction layouts with
  | nil =>
    intro d hd
    exact ⟨hd, by simp [Glass.moveLoop]⟩
  | cons layout rest ih =>
    intro d hd
    have hg := gesture_late layout layout.activeKeyAreaGeometry
      (Glass.movePositions tr d layout qpos es).1
      (Glass.movePositions tr d layout qpos es).2.2 elapsed h
    have hb := moveBody_of_no_gesture tr qpos elapsed es layout d hd hg
    cases hk : Glass.moveKeys layout layout.activeKeyAreaGeometry
        (Glass.movePositions tr d layout qpos es).1
        (Glass.movePositions tr d layout qpos es).2.1 { d with last_pos := qpos } with
    | some r =>
      rw [hk] at hb
      simp only [Glass.moveLoop, hb]
      obtain ⟨_, hf⟩ := moveKeys_frame _ _ _ _ _ _ hk
      refine ⟨hf.trans hd, ?_⟩
      intro x hx
      rcases moveKeys_events _ _ _ _ _ _ hk x hx with ⟨k, h1⟩ | ⟨k, h1⟩ <;> subst h1 <;> rfl
    | none =>
      rw [hk] at hb
      simp only [Glass.moveLoop, hb]
      exact ih { d with last_pos := qpos } hd

/-- C17: a pointer-move handled when 250 ms or more have elapsed since the press emits none of
`switchLeft`, `switchRight`, `keyboardClosed`, whatever the displacement and the rectangle,
and leaves `gesture_triggered` as it was (false when it was false). -/
theorem C17_no_gesture_outside_window (tr : Translate) (d : GlassPrivate) (obj : Nat)
    (qpos : QPoint) (elapsed : Int) (h : 250 ≤ elapsed) :
    (∀ e ∈ (Glass.eventFilter tr d (some obj) (some (QEvent.MouseMove qpos elapsed))).events,
        e.isGesture = false)
    ∧ (∀ l, Event.switchLeft l
          ∉ (Glass.eventFilter tr d (some obj) (some (QEvent.MouseMove qpos elapsed))).events
        ∧ Event.switchRight l
          ∉ (Glass.eventFilter tr d (some obj) (some (QEvent.MouseMove qpos elapsed))).events)
    ∧ Event.keyboardClosed
        ∉ (Glass.eventFilter tr d (some obj) (some (QEvent.MouseMove qpos elapsed))).events
    ∧ (Glass.eventFilter tr d (some obj)
        (some (QEvent.MouseMove qpos elapsed))).d.gesture_triggered = d.gesture_triggered := by
  have main : (∀ e ∈ (Glass.eventFilter tr d (some obj)
        (some (QEvent.MouseMove qpos elapsed))).events, e.isGesture = false)
      ∧ (Glass.eventFilter tr d (some obj)
        (some (QEvent.MouseMove qpos elapsed))).d.gesture_triggered = d.gesture_triggered := by
    by_cases hd : d.gesture_triggered = true
    · rw [move_ignored tr d obj qpos elapsed hd]
      exact ⟨by simp, rfl⟩
    · have hd2 : d.gesture_triggered = false := by simpa using hd
      have hev : Glass.eventFilter tr d (some obj) (some (QEvent.MouseMove qpos elapsed))
          = Glass.moveLoop tr qpos elapsed (Glass.eventSurface d obj) d.layouts d := by
        simp [Glass.eventFilter, hd2]
      obtain ⟨m1, m2⟩ := moveLoop_late tr qpos elapsed (Glass.eventSurface d obj) h
        d.layouts d hd2
      rw [hev]
      exact ⟨m2, m1.trans hd2.symm⟩
  obtain ⟨m1, m2⟩ := main
  refine ⟨m1, ?_, ?_, m2⟩
  · intro l
    exact ⟨fun hm => absurd (m1 _ hm) (by simp [Event.isGesture]),
      fun hm => absurd (m1 _ hm) (by simp [Event.isGesture])⟩
  · exact fun hm => absurd (m1 _ hm) (by simp [Event.isGesture])

/-- C17 at a concrete input: after the press at (100, 50) on the 200 x 100 layout, the move to
(20, 50) after 250 ms leaves the flag clear. -/
theorem C17_no_gesture_outside_window_witness :
    (Glass.eventFilter Glass.idTranslate Sample.pressed (some 0)
        (some (QEvent.MouseMove { x := 20, y := 50 } 250))).d.gesture_triggered
      = Sample.pressed.gesture_triggered :=
  (C17_no_gesture_outside_window Glass.idTranslate Sample.pressed 0 { x := 20, y := 50 } 250
    (by decide)).2.2.2

/-- C18: `setSurface` and `setExtendedSurface` called with a null surface, or with a surface
whose view has no viewport window, leave every field of the Glass state unchanged; the tracked
layouts are not cleared. -/
theorem C18_invalid_surface_rejected (d : GlassPrivate) (surface : Option Surface)
    (h : surface = none ∨ ∃ s, surface = some s ∧ s.viewport = none) :
    Glass.setSurface d surface = d
    ∧ Glass.setExtendedSurface d surface = d
    ∧ (Glass.setSurface d surface).layouts = d.layouts := by
  have hw : Glass.windowOf surface = none := by
    rcases h with h | ⟨s, h1, h2⟩
    · rw [h]
      rfl
    · rw [h1]
      exact h2
  simp [Glass.setSurface, Glass.setExtendedSurface, hw]

/-- C18 at a concrete input: a surface without viewport window is rejected by a Glass that
tracks the sample layout. -/
theorem C18_invalid_surface_rejected_witness :
    Glass.setSurface (Sample.glass [Sample.layout]) (some { ptr := 1, viewport := none })
        = Sample.glass [Sample.layout]
    ∧ Glass.setExtendedSurface (Sample.glass [Sample.layout])
        (some { ptr := 1, viewport := none }) = Sample.glass [Sample.layout]
    ∧ (Glass.setSurface (Sample.glass [Sample.layout])
        (some { ptr := 1, viewport := none })).layouts = (Sample.glass [Sample.layout]).layouts :=
  C18_invalid_surface_rejected (Sample.glass [Sample.layout])
    (some { ptr := 1, viewport := none }) (Or.inr ⟨{ ptr := 1, viewport := none }, rfl, rfl⟩)

/-- C19: with zero tracked layouts, every raw event (pointer-down, pointer-move, pointer-up or
any other) is not consumed, emits no event and leaves the active keys and the captured word
candidate unchanged. -/
theorem C19_no_layout_no_op (tr : Translate) (d : GlassPrivate) (obj : Nat) (ev : QEvent)
    (hl : d.layouts = []) :
    (Glass.eventFilter tr d (some obj) (some ev)).consumed = false
    ∧ (Glass.eventFilter tr d (some obj) (some ev)).events = []
    ∧ (Glass.eventFilter tr d (some obj) (some ev)).d.active_keys = d.active_keys
    ∧ (Glass.eventFilter tr d (some obj) (some ev)).d.active_candidate = d.active_candidate := by
  cases ev with
  | MouseButtonPress p =>
    simp [Glass.eventFilter, Glass.handlePressReleaseEvent, hl, Glass.pressReleaseLoop]
  | MouseButtonRelease p =>
    by_cases hg : d.gesture_triggered = true
    · simp [Glass.eventFilter, hg]
    · simp [Glass.eventFilter, hg, Glass.handlePressReleaseEvent, hl, Glass.pressReleaseLoop]
  | MouseMove p t =>
    by_cases hg : d.gesture_triggered = true
    · simp [Glass.eventFilter, hg]
    · simp [Glass.eventFilter, hg, hl, Glass.moveLoop]
  | Other => simp [Glass.eventFilter]

/-- C19 at a concrete input: a press at (10, 10) on a freshly constructed Glass without
layouts. -/
theorem C19_no_layout_no_op_witness :
    (Glass.eventFilter Glass.idTranslate (Sample.glass []) (some 0)
        (some (QEvent.MouseButtonPress { x := 10, y := 10 }))).consumed = false
    ∧ (Glass.eventFilter Glass.idTranslate (Sample.glass []) (some 0)
        (some (QEvent.MouseButtonPress { x := 10, y := 10 }))).events = []
    ∧ (Glass.eventFilter Glass.idTranslate (Sample.glass []) (some 0)
        (some (QEvent.MouseButtonPress { x := 10, y := 10 }))).d.active_keys
      = (Sample.glass []).active_keys
    ∧ (Glass.eventFilter Glass.idTranslate (Sample.glass []) (some 0)
        (some (QEvent.MouseButtonPress { x := 10, y := 10 }))).d.active_candidate
      = (Sample.glass []).active_candidate :=
  C19_no_layout_no_op Glass.idTranslate (Sample.glass []) 0
    (QEvent.MouseButtonPress { x := 10, y := 10 }) rfl

/-! ## Theorems: Glass, key enter and exit on a move -/

/-- C20: a pointer-move that triggers no gesture, handled for a layout with `last_key` the key
hit among the active keys at the translated last position and `key` the key hit among the
layout's keys at the translated current position. If they differ, the body returns `true`;
first, when `last_key` is valid, its first occurrence is removed from the active keys, the
long-press timer is stopped and `keyExited(last_key)` is emitted; then, when `key` is valid, it
is appended to the active keys, the timer is started with the layout recorded exactly when
`key` has extended keys, and `keyEntered(key)` is emitted. If they are equal, the body emits
nothing, changes only the last position and the loop goes on to the next layout. -/
theorem C20_move_enter_exit (tr : Translate) (qpos : QPoint) (elapsed : Int)
    (es : Option Surface) (layout : Layout) (d : GlassPrivate) (pos last press : QPoint)
    (hd : d.gesture_triggered = false)
    (hp : Glass.movePositions tr d layout qpos es = (pos, last, press))
    (hg : Glass.gesture layout layout.activeKeyAreaGeometry pos press elapsed = none) :
    (Logic.keyHit d.active_keys layout.activeKeyAreaGeometry last []
          Logic.FilterBehaviour.IgnoreIfInFilter
        ≠ Logic.keyHit layout.activeKeys layout.activeKeyAreaGeometry pos []
          Logic.FilterBehaviour.IgnoreIfInFilter →
      ∃ r, (Glass.moveBody tr qpos elapsed es layout d).2 = some r
        ∧ r.consumed = true
        ∧ r.events
          = (if (Logic.keyHit d.active_keys layout.activeKeyAreaGeometry last []
                Logic.FilterBehaviour.IgnoreIfInFilter).valid then
              [Event.keyExited (Logic.keyHit d.active_keys layout.activeKeyAreaGeometry last []
                Logic.FilterBehaviour.IgnoreIfInFilter) layout]
             else [])
            ++ (if (Logic.keyHit layout.activeKeys layout.activeKeyAreaGeometry pos []
                Logic.FilterBehaviour.IgnoreIfInFilter).valid then
              [Event.keyEntered (Logic.keyHit layout.activeKeys layout.activeKeyAreaGeometry
                pos [] Logic.FilterBehaviour.IgnoreIfInFilter) layout]
             else [])
        ∧ r.d.active_keys
          = (if (Logic.keyHit d.active_keys layout.activeKeyAreaGeometry last []
                Logic.FilterBehaviour.IgnoreIfInFilter).valid then
              d.active_keys.erase (Logic.keyHit d.active_keys layout.activeKeyAreaGeometry
                last [] Logic.FilterBehaviour.IgnoreIfInFilter)
             else d.active_keys)
            ++ (if (Logic.keyHit layout.activeKeys layout.activeKeyAreaGeometry pos []
                Logic.FilterBehaviour.IgnoreIfInFilter).valid then
              [Logic.keyHit layout.activeKeys layout.activeKeyAreaGeometry pos []
                Logic.FilterBehaviour.IgnoreIfInFilter]
             else [])
        ∧ r.d.long_press_timer
          = (if (Logic.keyHit layout.activeKeys layout.activeKeyAreaGeometry pos []
                  Logic.FilterBehaviour.IgnoreIfInFilter).valid
                && (Logic.keyHit layout.activeKeys layout.activeKeyAreaGeometry pos []
                  Logic.FilterBehaviour.IgnoreIfInFilter).hasExtendedKeys then true
             else if (Logic.keyHit d.active_keys layout.activeKeyAreaGeometry last []
                Logic.FilterBehaviour.IgnoreIfInFilter).valid then false
             else d.long_press_timer)
        ∧ r.d.long_press_layout
          = (if (Logic.keyHit layout.activeKeys layout.activeKeyAreaGeometry pos []
                  Logic.FilterBehaviour.IgnoreIfInFilter).valid
                && (Logic.keyHit layout.activeKeys layout.activeKeyAreaGeometry pos []
                  Logic.FilterBehaviour.IgnoreIfInFilter).hasExtendedKeys then some layout
             else d.long_press_layout))
    ∧ (Logic.keyHit d.active_keys layout.activeKeyAreaGeometry last []
          Logic.FilterBehaviour.IgnoreIfInFilter
        = Logic.keyHit layout.activeKeys layout.activeKeyAreaGeometry pos []
          Logic.FilterBehaviour.IgnoreIfInFilter →
      Glass.moveBody tr qpos elapsed es layout d = ({ d with last_pos := qpos }, none)) := by
  have hg2 : Glass.gesture layout layout.activeKeyAreaGeometry
      (Glass.movePositions tr d layout qpos es).1
      (Glass.movePositions tr d layout qpos es).2.2 elapsed = none := by
    rw [hp]
    exact hg
  have hb := moveBody_of_no_gesture tr qpos elapsed es layout d hd hg2
  rw [hp] at hb
  rw [hb]
  constructor
  · intro hne
    simp only [Glass.moveKeys, ne_eq, hne, not_false_eq_true, if_true, Option.some.injEq,
      exists_eq_left', removeActiveKey, Option.getD_some, removeActiveKeyAt_eq_erase]
    split_ifs <;> simp_all
  · intro he
    simp [Glass.moveKeys, he]

/-- C20 at a concrete input: key B is active after a press at (30, 10) on the sample layout;
a move to (10, 10) after 1000 ms exits B and enters A. -/
theorem C20_move_enter_exit_witness :
    ∃ r, (Glass.moveBody Glass.idTranslate { x := 10, y := 10 } 1000 none Sample.layout
          { Sample.glass [Sample.layout] with
            active_keys := [Sample.keyB], last_pos := { x := 30, y := 10 },
            press_pos := { x := 30, y := 10 } }).2 = some r
      ∧ r.events = [Event.keyExited Sample.keyB Sample.layout,
                    Event.keyEntered Sample.keyA Sample.layout]
      ∧ r.d.active_keys = [Sample.keyA] := by
  obtain ⟨r, h1, _, h3, h4, _⟩ :=
    (C20_move_enter_exit Glass.idTranslate { x := 10, y := 10 } 1000 none Sample.layout
      { Sample.glass [Sample.layout] with
        active_keys := [Sample.keyB], last_pos := { x := 30, y := 10 },
        press_pos := { x := 30, y := 10 } }
      { x := 10, y := 10 } { x := 30, y := 10 } { x := 30, y := 10 }
      rfl rfl (by decide)).1 (by decide)
  exact ⟨r, h1, h3.trans (by decide), h4.trans (by decide)⟩

/-! ## Theorems: removal from the active keys, ignored signals, shift taps -/

/-- C23: `removeActiveKey` on a null vector does nothing; on a vector `ks` it removes the
first occurrence of `k` and nothing else: when `k` occurs, `ks` splits as `pre ++ k :: post`
with `k` not in `pre` and the result is `pre ++ post`, one element shorter; the result is
always a sublist of `ks` (the remaining keys keep their relative order); when `k` does not
occur, `ks` is unchanged. -/
theorem C23_removeActiveKey_first_occurrence (ks : List Key) (k : Key) :
    removeActiveKey none k = none
    ∧ removeActiveKey (some ks) k = some (ks.erase k)
    ∧ (k ∈ ks → ∃ pre post, ks = pre ++ k :: post ∧ k ∉ pre
        ∧ removeActiveKey (some ks) k = some (pre ++ post))
    ∧ (k ∈ ks → (removeActiveKeyAt ks k).length + 1 = ks.length)
    ∧ (removeActiveKeyAt ks k).Sublist ks
    ∧ (k ∉ ks → removeActiveKey (some ks) k = some ks) := by
  have he := removeActiveKeyAt_eq_erase ks k
  refine ⟨rfl, by simp [removeActiveKey, he], ?_, ?_, ?_, ?_⟩
  · intro hm
    obtain ⟨pre, post, h1, h2, h3⟩ := List.exists_erase_eq hm
    exact ⟨pre, post, h2, h1, by simp [removeActiveKey, he, h3]⟩
  · intro hm
    rw [he, List.length_erase_of_mem hm]
    have : 0 < ks.length := List.length_pos_of_mem hm
    omega
  · rw [he]
    exact List.erase_sublist k ks
  · intro hm
    simp [removeActiveKey, he, List.erase_of_not_mem hm]

/-- C23 at a concrete input: removing key A from [A, B, A] leaves [B, A]. -/
theorem C23_removeActiveKey_first_occurrence_witness :
    ∃ pre post, [Sample.keyA, Sample.keyB, Sample.keyA] = pre ++ Sample.keyA :: post
      ∧ Sample.keyA ∉ pre
      ∧ removeActiveKey (some [Sample.keyA, Sample.keyB, Sample.keyA]) Sample.keyA
          = some (pre ++ post) :=
  (C23_removeActiveKey_first_occurrence [Sample.keyA, Sample.keyB, Sample.keyA]
    Sample.keyA).2.2.1 (by decide)

/-- C24: a (state, signal) pair is outside the transition table exactly when it is one of the
nine unlisted pairs, and for each of them a delivered signal leaves the machine as it is and
runs no slot, directly and when the signal is emitted by `onActiveKeysChanged`. -/
theorem C24_unlisted_signals_ignored (s : QState) (sig : Signal) :
    (specTransition s sig = none ↔ (s, sig) ∈ unlistedPairs)
    ∧ unlistedPairs.length = 9
    ∧ ((s, sig) ∈ unlistedPairs →
        (LayoutUpdater.inState s).deliver sig = (LayoutUpdater.inState s, [])
        ∧ ((LayoutUpdater.inState s).deliver sig).1.configuration = some s
        ∧ LayoutUpdater.deliverAll (LayoutUpdater.inState s) [sig]
            = (LayoutUpdater.inState s, [])) := by
  refine ⟨?_, rfl, ?_⟩
  · cases s <;> cases sig <;> decide
  · cases s <;> cases sig <;> decide

/-- C24 at a concrete input: `shiftPressed` delivered in CapsLock is ignored. -/
theorem C24_unlisted_signals_ignored_witness :
    (LayoutUpdater.inState QState.caps_lock).deliver Signal.shiftPressed
        = (LayoutUpdater.inState QState.caps_lock, [])
    ∧ ((LayoutUpdater.inState QState.caps_lock).deliver
        Signal.shiftPressed).1.configuration = some QState.caps_lock
    ∧ LayoutUpdater.deliverAll (LayoutUpdater.inState QState.caps_lock) [Signal.shiftPressed]
        = (LayoutUpdater.inState QState.caps_lock, []) :=
  (C24_unlisted_signals_ignored QState.caps_lock Signal.shiftPressed).2.2 (by decide)

/-- One shift tap on the tracked layout moves NoShift to LatchedShift, LatchedShift to CapsLock
and CapsLock to NoShift, and changes nothing else. -/
theorem tap_step (layout : Option Nat) (changed : Panel) :
    LayoutUpdater.tap { layout := layout, machine := LayoutUpdater.inState QState.no_shift }
        layout changed
      = { layout := layout, machine := LayoutUpdater.inState QState.latched_shift }
    ∧ LayoutUpdater.tap
        { layout := layout, machine := LayoutUpdater.inState QState.latched_shift }
        layout changed
      = { layout := layout, machine := LayoutUpdater.inState QState.caps_lock }
    ∧ LayoutUpdater.tap { layout := layout, machine := LayoutUpdater.inState QState.caps_lock }
        layout changed
      = { layout := layout, machine := LayoutUpdater.inState QState.no_shift } := by
  refine ⟨?_, ?_, ?_⟩ <;>
    simp [LayoutUpdater.tap, LayoutUpdater.onActiveKeysChanged, LayoutUpdater.emitted,
      LayoutUpdater.deliverAll] <;> decide

/-- Three more taps from NoShift lead to the same private data. -/
theorem taps_add_three (layout : Option Nat) (changed : Panel) (n : Nat) :
    LayoutUpdater.taps layout changed (n + 3)
        { layout := layout, machine := LayoutUpdater.inState QState.no_shift }
      = LayoutUpdater.taps layout changed n
        { layout := layout, machine := LayoutUpdater.inState QState.no_shift } := by
  obtain ⟨h1, h2, h3⟩ := tap_step layout changed
  have : n + 3 = (n + 2) + 1 := rfl
  rw [this]
  simp only [LayoutUpdater.taps, h1, h2, h3]

/-- The state after `n` taps from NoShift is given by `n % 3`. -/
theorem taps_mod (layout : Option Nat) (changed : Panel) :
    ∀ n, LayoutUpdater.taps layout changed n
        { layout := layout, machine := LayoutUpdater.inState QState.no_shift }
      = LayoutUpdater.taps layout changed (n % 3)
        { layout := layout, machine := LayoutUpdater.inState QState.no_shift } := by
  intro n
  induction n using Nat.strong_induction_on with
  | _ n ih =>
    by_cases h : n < 3
    · rw [Nat.mod_eq_of_lt h]
    · have h3 : n = (n - 3) + 3 := by omega
      have hm : n % 3 = (n - 3) % 3 := by omega
      rw [hm, ← ih (n - 3) (by omega)]
      conv_lhs => rw [h3]
      exact taps_add_three layout changed (n - 3)

/-- C25: driving the machine only through `onActiveKeysChanged` on the tracked layout, from
NoShift one shift tap ends in LatchedShift, two taps end in CapsLock and three taps end in
NoShift; for every `n` the state after `n` taps is NoShift, LatchedShift or CapsLock according
to `n % 3` being 0, 1 or 2, so two tap counts with the same remainder end in the same state. -/
theorem C25_shift_taps_period_three (layout : Option Nat) (changed : Panel) (n m : Nat) :
    (LayoutUpdater.taps layout changed 1
        { layout := layout, machine := LayoutUpdater.inState QState.no_shift }).machine.configuration
      = some QState.latched_shift
    ∧ (LayoutUpdater.taps layout changed 2
        { layout := layout, machine := LayoutUpdater.inState QState.no_shift }).machine.configuration
      = some QState.caps_lock
    ∧ (LayoutUpdater.taps layout changed 3
        { layout := layout, machine := LayoutUpdater.inState QState.no_shift }).machine.configuration
      = some QState.no_shift
    ∧ (LayoutUpdater.taps layout changed n
        { layout := layout, machine := LayoutUpdater.inState QState.no_shift }).machine.configuration
      = some (if n % 3 = 0 then QState.no_shift
              else if n % 3 = 1 then QState.latched_shift else QState.caps_lock)
    ∧ (n % 3 = m % 3 →
        (LayoutUpdater.taps layout changed n
          { layout := layout, machine := LayoutUpdater.inState QState.no_shift })
        = LayoutUpdater.taps layout changed m
          { layout := layout, machine := LayoutUpdater.inState QState.no_shift }) := by
  obtain ⟨h1, h2, h3⟩ := tap_step layout changed
  have small : ∀ r, r < 3 →
      (LayoutUpdater.taps layout changed r
        { layout := layout, machine := LayoutUpdater.inState QState.no_shift }).machine.configuration
      = some (if r = 0 then QState.no_shift
              else if r = 1 then QState.latched_shift else QState.caps_lock) := by
    intro r hr
    interval_cases r
    · rfl
    · simp only [LayoutUpdater.taps, h1]
      rfl
    · simp only [LayoutUpdater.taps, h1, h2]
      rfl
  refine ⟨?_, ?_, ?_, ?_, ?_⟩
  · simp only [LayoutUpdater.taps, h1]
    rfl
  · simp only [LayoutUpdater.taps, h1, h2]
    rfl
  · simp only [LayoutUpdater.taps, h1, h2, h3]
    rfl
  · rw [taps_mod layout changed n]
    exact small (n % 3) (Nat.mod_lt _ (by decide))
  · intro hnm
    rw [taps_mod layout changed n, taps_mod layout changed m, hnm]

/-- C25 at a concrete input: four taps and one tap from NoShift end in the same state. -/
theorem C25_shift_taps_period_three_witness :
    LayoutUpdater.taps (some 0) Panel.CenterPanel 4
        { layout := some 0, machine := LayoutUpdater.inState QState.no_shift }
      = LayoutUpdater.taps (some 0) Panel.CenterPanel 1
        { layout := some 0, machine := LayoutUpdater.inState QState.no_shift } :=
  (C25_shift_taps_period_three (some 0) Panel.CenterPanel 4 1).2.2.2.2 (by decide)

/-! ## Theorems: Glass, the long-press timer across events -/

/-- The release case leaves the long-press timer alone. -/
theorem releaseCase_timer (layout : Layout) (pos : QPoint) (d : GlassPrivate) (c : Bool) :
    (Glass.releaseCase layout pos d c).d.long_press_timer = d.long_press_timer := by
  unfold Glass.releaseCase
  simp only
  split_ifs <;> rfl

/-- The release loop leaves the long-press timer alone. -/
theorem releaseLoop_timer (tr : Translate) (qpos : QPoint) (es : Option Surface) :
    ∀ (layouts : List Layout) (d : GlassPrivate) (c : Bool),
      (Glass.pressReleaseLoop tr false qpos es layouts d c).d.long_press_timer
        = d.long_press_timer := by
  intro layouts
  induction layouts with
  | nil => intro d c; rfl
  | cons layout rest ih =>
    intro d c
    have h1 := releaseCase_timer layout (Glass.hitPos tr false qpos es layout d) d c
    by_cases hp : Glass.panelAt layout (Glass.hitPos tr false qpos es layout d) = Panel.NumPanels
    · simp only [Glass.pressReleaseLoop, hp, ne_eq, not_true_eq_false, if_false,
        Bool.false_eq_true]
      rw [ih, h1]
    · simp only [Glass.pressReleaseLoop, hp, ne_eq, not_false_eq_true, if_true,
        Bool.false_eq_true, if_false]
      exact h1

/-- After a pointer-up the long-press timer is not running. -/
theorem release_timer (tr : Translate) (d : GlassPrivate) (o : Nat) (qpos : QPoint) :
    (Glass.eventFilter tr d (some o)
      (some (QEvent.MouseButtonRelease qpos))).d.long_press_timer = false := by
  by_cases hg : d.gesture_triggered = true
  · simp [Glass.eventFilter, hg]
  · have hev : Glass.eventFilter tr d (some o) (some (QEvent.MouseButtonRelease qpos))
        = Glass.pressReleaseLoop tr false qpos (Glass.eventSurface d o) d.layouts
            { d with mouse_captured := false, long_press_timer := false,
                     last_pos := qpos, press_pos := qpos } false := by
      simp [Glass.eventFilter, hg, Glass.handlePressReleaseEvent]
    rw [hev, releaseLoop_timer]

/-- The key enter/exit part, when it emits a `keyExited`: the timer runs afterwards exactly
when a key with extended keys was entered. -/
theorem moveKeys_timer (layout : Layout) (rect : QRect) (pos last : QPoint)
    (d : GlassPrivate) (r : Glass.Handled)
    (h : Glass.moveKeys layout rect pos last d = some r)
    (hx : ∃ k l, Event.keyExited k l ∈ r.events) :
    r.d.long_press_timer = true
      ↔ ∃ k l, Event.keyEntered k l ∈ r.events ∧ k.hasExtendedKeys = true := by
  unfold Glass.moveKeys at h
  simp only at h
  split_ifs at h <;> simp only [Option.some.injEq] at h <;> subst h <;> simp_all

/-- The move loop, entered with no gesture triggered: when the flag is set afterwards, the
timer is as before and the active keys are cleared; when the flag is clear afterwards and a
`keyExited` was emitted, the timer runs exactly when a key with extended keys was entered. -/
theorem moveLoop_timer (tr : Translate) (qpos : QPoint) (elapsed : Int) (es : Option Surface) :
    ∀ (layouts : List Layout) (d : GlassPrivate), d.gesture_triggered = false →
      ((Glass.moveLoop tr qpos elapsed es layouts d).d.gesture_triggered = true →
        (Glass.moveLoop tr qpos elapsed es layouts d).d.long_press_timer = d.long_press_timer
        ∧ (Glass.moveLoop tr qpos elapsed es layouts d).d.active_keys = [])
      ∧ ((Glass.moveLoop tr qpos elapsed es layouts d).d.gesture_triggered = false →
        (∃ k l, Event.keyExited k l ∈ (Glass.moveLoop tr qpos elapsed es layouts d).events) →
        ((Glass.moveLoop tr qpos elapsed es layouts d).d.long_press_timer = true
          ↔ ∃ k l, Event.keyEntered k l ∈ (Glass.moveLoop tr qpos elapsed es layouts d).events
              ∧ k.hasExtendedKeys = true)) := by
  intro layouts
  induction layouts with
  | nil =>
    intro d hd
    refine ⟨fun h => ?_, fun _ hx => ?_⟩
    · simp only [Glass.moveLoop] at h
      rw [hd] at h
      exact absurd h (by decide)
    · simp [Glass.moveLoop] at hx
  | cons layout rest ih =>
    intro d hd
    cases hg : Glass.gesture layout layout.activeKeyAreaGeometry
        (Glass.movePositions tr d layout qpos es).1
        (Glass.movePositions tr d layout qpos es).2.2 elapsed with
    | some e =>
      have hb := moveBody_of_gesture tr qpos elapsed es layout d e hg
      simp only [Glass.moveLoop, hb]
      refine ⟨fun _ => by constructor <;> first | rfl | trivial, fun h => ?_⟩
      exact absurd h (by decide)
    | none =>
      have hb := moveBody_of_no_gesture tr qpos elapsed es layout d hd hg
      cases hk : Glass.moveKeys layout layout.activeKeyAreaGeometry
          (Glass.movePositions tr d layout qpos es).1
          (Glass.movePositions tr d layout qpos es).2.1 { d with last_pos := qpos } with
      | some r =>
        rw [hk] at hb
        simp only [Glass.moveLoop, hb]
        obtain ⟨_, hf⟩ := moveKeys_frame _ _ _ _ _ _ hk
        refine ⟨fun h => ?_, fun _ hx => moveKeys_timer _ _ _ _ _ _ hk hx⟩
        rw [hf] at h
        exact absurd (hd.symm.trans h) (by decide)
      | none =>
        rw [hk] at hb
        simp only [Glass.moveLoop, hb]
        exact ih { d with last_pos := qpos } hd

/-- After a gesture was triggered and the active keys were cleared, a fire of the long-press
timer emits nothing. -/
theorem longPress_silent (d : GlassPrivate) (h : d.gesture_triggered = true) :
    (Glass.onLongPressTriggered d).2 = [] := by
  simp [Glass.onLongPressTriggered, h]

/-- C21 (the claim fails as stated): on the layout whose key C has extended keys, a press at
(10, 10) starts the long-press timer; a move to (35, 10) after 100 ms triggers the swipe
gesture (`switchLeft`, then `keyExited(C)`) and the timer is still running afterwards. -/
theorem C21_gesture_leaves_timer_running :
    (Glass.run Glass.idTranslate (Sample.glass [Sample.ribbon])
        [(0, QEvent.MouseButtonPress { x := 10, y := 10 })]).1.long_press_timer = true
    ∧ (Glass.eventFilter Glass.idTranslate
        (Glass.run Glass.idTranslate (Sample.glass [Sample.ribbon])
          [(0, QEvent.MouseButtonPress { x := 10, y := 10 })]).1 (some 0)
        (some (QEvent.MouseMove { x := 35, y := 10 } 100))).events
      = [Event.switchLeft Sample.ribbon, Event.keyExited Sample.keyC Sample.ribbon]
    ∧ (Glass.eventFilter Glass.idTranslate
        (Glass.run Glass.idTranslate (Sample.glass [Sample.ribbon])
          [(0, QEvent.MouseButtonPress { x := 10, y := 10 })]).1 (some 0)
        (some (QEvent.MouseMove { x := 35, y := 10 } 100))).d.long_press_timer = true := by
  decide

/-- C21 (amended): after a pointer-up the long-press timer is stopped. After a pointer-move
that triggers no gesture and emits a `keyExited`, the timer that was pending has been stopped:
it runs afterwards exactly when the same move entered a key with extended keys. After a
pointer-move that triggers a swipe or dismiss gesture the timer is left as it was; the flag
`gesture_triggered` is set and the active keys are cleared, so that a fire of the timer emits
no event. -/
theorem C21_long_press_cancellation (tr : Translate) (d : GlassPrivate) (o : Nat)
    (qpos : QPoint) (elapsed : Int) :
    (Glass.eventFilter tr d (some o)
        (some (QEvent.MouseButtonRelease qpos))).d.long_press_timer = false
    ∧ (d.gesture_triggered = false →
        (Glass.eventFilter tr d (some o)
          (some (QEvent.MouseMove qpos elapsed))).d.gesture_triggered = false →
        (∃ k l, Event.keyExited k l ∈ (Glass.eventFilter tr d (some o)
          (some (QEvent.MouseMove qpos elapsed))).events) →
        ((Glass.eventFilter tr d (some o)
            (some (QEvent.MouseMove qpos elapsed))).d.long_press_timer = true
          ↔ ∃ k l, Event.keyEntered k l ∈ (Glass.eventFilter tr d (some o)
                (some (QEvent.MouseMove qpos elapsed))).events
              ∧ k.hasExtendedKeys = true))
    ∧ (d.gesture_triggered = false →
        (Glass.eventFilter tr d (some o)
          (some (QEvent.MouseMove qpos elapsed))).d.gesture_triggered = true →
        (Glass.eventFilter tr d (some o)
            (some (QEvent.MouseMove qpos elapsed))).d.long_press_timer = d.long_press_timer
        ∧ (Glass.eventFilter tr d (some o)
            (some (QEvent.MouseMove qpos elapsed))).d.active_keys = []
        ∧ (Glass.onLongPressTriggered (Glass.eventFilter tr d (some o)
            (some (QEvent.MouseMove qpos elapsed))).d).2 = []) := by
  have hev : d.gesture_triggered = false →
      Glass.eventFilter tr d (some o) (some (QEvent.MouseMove qpos elapsed))
        = Glass.moveLoop tr qpos elapsed (Glass.eventSurface d o) d.layouts d := by
    intro hd
    simp [Glass.eventFilter, hd]
  refine ⟨release_timer tr d o qpos, ?_, ?_⟩
  · intro hd
    rw [hev hd]
    exact (moveLoop_timer tr qpos elapsed (Glass.eventSurface d o) d.layouts d hd).2
  · intro hd
    rw [hev hd]
    intro hf
    have m1 := (moveLoop_timer tr qpos elapsed (Glass.eventSurface d o) d.layouts d hd).1 hf
    exact ⟨m1.1, m1.2, longPress_silent _ hf⟩

/-- C21 (amended) at a concrete input: key B is active on the layout with the word ribbon and
the timer is not running; a move from (30, 10) to (10, 10) after 1000 ms exits B and enters
key C, which has extended keys, so the timer runs afterwards. -/
theorem C21_long_press_cancellation_witness :
    (Glass.eventFilter Glass.idTranslate
        { Sample.glass [Sample.ribbon] with
          active_keys := [Sample.keyB], last_pos := { x := 30, y := 10 },
          press_pos := { x := 30, y := 10 } } (some 0)
        (some (QEvent.MouseMove { x := 10, y := 10 } 1000))).d.long_press_timer = true :=
  ((C21_long_press_cancellation Glass.idTranslate
      { Sample.glass [Sample.ribbon] with
        active_keys := [Sample.keyB], last_pos := { x := 30, y := 10 },
        press_pos := { x := 30, y := 10 } } 0 { x := 10, y := 10 } 1000).2.1 rfl (by decide)
    ⟨Sample.keyB, Sample.ribbon, by decide⟩).2 ⟨Sample.keyC, Sample.ribbon, by decide, rfl⟩

/-! ## Theorems: Glass, dispatch over several layouts -/

/-- C22 (the claim fails as stated): a Glass tracking the sample layout and, second, the
layout with the word ribbon; a pointer-down at (10, 10). Hit-testing the second layout at the
translated position, excluding the active keys, yields the valid key C, before the press as
well as once key A of the first layout is active. The handler presses key A on the first
layout, finds the position inside that layout's center panel, emits `keyAreaPressed` and
returns: `keyPressed(C)` is not emitted for the second layout. Tracked alone, the second
layout gets `keyPressed(C)`. -/
theorem C22_later_layout_not_reached :
    Glass.hitPos Glass.idTranslate true { x := 10, y := 10 } none Sample.ribbon
        (Sample.glass [Sample.layout, Sample.ribbon]) = { x := 10, y := 10 }
    ∧ Logic.keyHit Sample.ribbon.activeKeys Sample.ribbon.activeKeyAreaGeometry
        { x := 10, y := 10 } [] Logic.FilterBehaviour.IgnoreIfInFilter = Sample.keyC
    ∧ Logic.keyHit Sample.ribbon.activeKeys Sample.ribbon.activeKeyAreaGeometry
        { x := 10, y := 10 } [Sample.keyA] Logic.FilterBehaviour.IgnoreIfInFilter = Sample.keyC
    ∧ Sample.keyC.valid = true
    ∧ (Glass.eventFilter Glass.idTranslate (Sample.glass [Sample.layout, Sample.ribbon])
        (some 0) (some (QEvent.MouseButtonPress { x := 10, y := 10 }))).events
      = [Event.keyPressed Sample.keyA Sample.layout,
         Event.keyAreaPressed Panel.CenterPanel Sample.layout,
         Event.keyAreaPressed Panel.CenterPanel Sample.layout]
    ∧ Event.keyPressed Sample.keyC Sample.ribbon
        ∉ (Glass.eventFilter Glass.idTranslate (Sample.glass [Sample.layout, Sample.ribbon])
            (some 0) (some (QEvent.MouseButtonPress { x := 10, y := 10 }))).events
    ∧ Event.keyPressed Sample.keyC Sample.ribbon
        ∈ (Glass.eventFilter Glass.idTranslate (Sample.glass [Sample.ribbon])
            (some 0) (some (QEvent.MouseButtonPress { x := 10, y := 10 }))).events := by
  decide

/-! ## Theorems: Glass, a swipe session -/

/-- The position used by the press case depends only on the session data. -/
theorem hitPos_press_same (tr : Translate) (qpos : QPoint) (es : Option Surface)
    (layout : Layout) (d d1 : GlassPrivate) (h : Glass.sameSession d d1) :
    Glass.hitPos tr true qpos es layout d1 = Glass.hitPos tr true qpos es layout d := by
  unfold Glass.sameSession at h
  unfold Glass.hitPos Glass.targetSurface
  rw [h.2.2.1, h.2.2.2.1]

/-- The press loop over layouts none of whose panel geometries contains the position runs
through them and goes on with the layouts that follow. -/
theorem pressLoop_pass (tr : Translate) (qpos : QPoint) (es : Option Surface)
    (rest : List Layout) :
    ∀ (pre : List Layout) (d : GlassPrivate) (c : Bool),
      (∀ l ∈ pre, Glass.panelAt l (Glass.hitPos tr true qpos es l d) = Panel.NumPanels) →
      (Glass.pressReleaseLoop tr true qpos es (pre ++ rest) d c).events
        = (Glass.pressReleaseLoop tr true qpos es pre d c).events
          ++ (Glass.pressReleaseLoop tr true qpos es rest
              (Glass.pressReleaseLoop tr true qpos es pre d c).d
              (Glass.pressReleaseLoop tr true qpos es pre d c).consumed).events := by
  intro pre
  induction pre with
  | nil =>
    intro d c _
    simp [Glass.pressReleaseLoop]
  | cons l pre ih =>
    intro d c hp
    have hl := hp l (List.mem_cons_self _ _)
    obtain ⟨hs, _, _⟩ := pressCase_spec l (Glass.hitPos tr true qpos es l d) d c
    have hrest : ∀ x ∈ pre, Glass.panelAt x (Glass.hitPos tr true qpos es x
        (Glass.pressCase l (Glass.hitPos tr true qpos es l d) d c).d) = Panel.NumPanels := by
      intro x hx
      rw [hitPos_press_same tr qpos es x d _ hs]
      exact hp x (List.mem_cons_of_mem _ hx)
    have h2 := ih (Glass.pressCase l (Glass.hitPos tr true qpos es l d) d c).d
      (Glass.pressCase l (Glass.hitPos tr true qpos es l d) d c).consumed hrest
    rw [List.cons_append]
    simp only [Glass.pressReleaseLoop, hl, ne_eq, not_true_eq_false, if_false, if_true]
    rw [h2, List.append_assoc]

/-- C22 (amended): for every pointer-down and every tracked layout `L`, the first in the list
or a later one, such that no tracked layout before `L` in the list has a panel geometry
containing the translated position, if hit-testing the translated position against the active
key area of `L`, excluding the keys that are active when `L` is reached, yields a valid key
`k`, then `keyPressed(k, L)` is emitted. -/
theorem C22_press_reaches_unclaimed_layout (tr : Translate) (d : GlassPrivate) (o : Nat)
    (p : QPoint) (pre : List Layout) (L : Layout) (post : List Layout)
    (hl : d.layouts = pre ++ L :: post)
    (hpre : ∀ l ∈ pre,
      Glass.panelAt l (Glass.hitPos tr true p (Glass.eventSurface d o) l d) = Panel.NumPanels)
    (hv : (Logic.keyHit L.activeKeys L.activeKeyAreaGeometry
        (Glass.hitPos tr true p (Glass.eventSurface d o) L d)
        (Glass.pressReleaseLoop tr true p (Glass.eventSurface d o) pre
          { d with mouse_captured := true, gesture_triggered := false, last_pos := p,
                   press_pos := p } false).d.active_keys
        Logic.FilterBehaviour.IgnoreIfInFilter).valid = true) :
    Event.keyPressed
        (Logic.keyHit L.activeKeys L.activeKeyAreaGeometry
          (Glass.hitPos tr true p (Glass.eventSurface d o) L d)
          (Glass.pressReleaseLoop tr true p (Glass.eventSurface d o) pre
            { d with mouse_captured := true, gesture_triggered := false, last_pos := p,
                     press_pos := p } false).d.active_keys
          Logic.FilterBehaviour.IgnoreIfInFilter) L
      ∈ (Glass.eventFilter tr d (some o) (some (QEvent.MouseButtonPress p))).events := by
  have hev : Glass.eventFilter tr d (some o) (some (QEvent.MouseButtonPress p))
      = Glass.pressReleaseLoop tr true p (Glass.eventSurface d o) (pre ++ L :: post)
          { d with mouse_captured := true, gesture_triggered := false, last_pos := p,
                   press_pos := p } false := by
    simp [Glass.eventFilter, Glass.handlePressReleaseEvent, hl]
  have hpass := pressLoop_pass tr p (Glass.eventSurface d o) (L :: post) pre
    { d with mouse_captured := true, gesture_triggered := false, last_pos := p,
             press_pos := p } false hpre
  obtain ⟨hs, _, _⟩ := pressLoop_spec tr p (Glass.eventSurface d o) pre
    { d with mouse_captured := true, gesture_triggered := false, last_pos := p,
             press_pos := p } false
  have hpos : Glass.hitPos tr true p (Glass.eventSurface d o) L
      (Glass.pressReleaseLoop tr true p (Glass.eventSurface d o) pre
        { d with mouse_captured := true, gesture_triggered := false, last_pos := p,
                 press_pos := p } false).d
      = Glass.hitPos tr true p (Glass.eventSurface d o) L d :=
    (hitPos_press_same tr p (Glass.eventSurface d o) L
      { d with mouse_captured := true, gesture_triggered := false, last_pos := p,
               press_pos := p } _ hs).trans rfl
  have hbegin := loop_events_begin tr true p (Glass.eventSurface d o) L post
    (Glass.pressReleaseLoop tr true p (Glass.eventSurface d o) pre
      { d with mouse_captured := true, gesture_triggered := false, last_pos := p,
               press_pos := p } false).d
    (Glass.pressReleaseLoop tr true p (Glass.eventSurface d o) pre
      { d with mouse_captured := true, gesture_triggered := false, last_pos := p,
               press_pos := p } false).consumed
  rw [hpos] at hbegin
  simp only [if_true] at hbegin
  rw [hev, hpass]
  apply List.mem_append_right
  apply hbegin.subset
  unfold Glass.pressCase
  simp only [hv, if_true]
  exact List.mem_cons_self _ _

/-- C22 (amended) at a concrete input: a Glass tracking first a layout whose panel lies aside
at (100, 0) and second the sample layout; a press at (10, 10) is outside the panels of the
first layout and presses key A on the second. -/
theorem C22_press_reaches_unclaimed_layout_witness :
    Event.keyPressed Sample.keyA Sample.layout
      ∈ (Glass.eventFilter Glass.idTranslate (Sample.glass [Sample.aside, Sample.layout])
          (some 0) (some (QEvent.MouseButtonPress { x := 10, y := 10 }))).events :=
  C22_press_reaches_unclaimed_layout Glass.idTranslate
    (Sample.glass [Sample.aside, Sample.layout]) 0 { x := 10, y := 10 }
    [Sample.aside] Sample.layout [] rfl (by decide) (by decide)

end MaliitKeyboard
